import Mathlib

set_option maxRecDepth 100000

/-!
Verification of the Jocasta nomination/review lifecycle engine.

This file gives a shallow embedding, in Lean, of the core algorithmic pieces
of the Jocasta wiki bot: the archive/review command parsers
(jocasta/nominations/data.py), the approval and vote gate and the archival
steps (jocasta/nominations/archiver.py), the talk-page merge engine
(jocasta/nominations/talk_page.py), the parent-page detachment step
(jocasta/nominations/processor.py), the word counter (jocasta/common.py) and
the objection-tree classifier (jocasta/nominations/objection.py).

Python strings are embedded as Lean String values; Python text scans
(substring tests, str.count, str.replace, the fixed regular expressions used
by the source) are implemented as executable recursive functions over
List Char, with matching semantics documented function by function.  External
document I/O (page reads and writes) is made explicit: a function that edits
a wiki page takes the current page text as an argument and returns the text
it would write, so a skipped write is visible as a none result.  Python
exceptions (ArchiveException and friends) are embedded as Except String.
-/

/-! ## Python string primitives -/

deriving instance DecidableEq for Except


/-- Characters treated as whitespace by Python str.strip (ASCII subset:
space, tab, newline, carriage return, vertical tab, form feed). -/
def pyIsSpaceChar (c : Char) : Bool :=
  c = ' ' || c = '\t' || c = '\n' || c = '\r' || c = Char.ofNat 11 || c = Char.ofNat 12

/-- Opening brace character, written by code point to keep brace characters
out of the literals. -/
def lbrace : Char := Char.ofNat 123

/-- Closing brace character. -/
def rbrace : Char := Char.ofNat 125

/-- Embedding of Python str.strip() on a list of characters. -/
def pyStripList (l : List Char) : List Char :=
  ((l.dropWhile pyIsSpaceChar).reverse.dropWhile pyIsSpaceChar).reverse

/-- Embedding of Python str.strip() on strings. -/
def pyStrip (s : String) : String :=
  String.mk (pyStripList s.toList)

/-- Embedding of Python str.lower() (ASCII texts only, as in the wiki markup
handled by the bot). -/
def pyLower (s : String) : String :=
  String.mk (s.toList.map Char.toLower)

/-- Embedding of Python str.splitlines() for texts whose only line break is
the newline character (the only break that occurs in the wiki texts and in
the string literals of the source). -/
def splitLinesList : List Char → List (List Char)
  | [] => []
  | c :: rest =>
    if c = '\n' then [] :: splitLinesList rest
    else
      match splitLinesList rest with
      | [] => [[c]]
      | h :: t => (c :: h) :: t

/-- String version of splitLinesList. -/
def splitLines (s : String) : List String :=
  (splitLinesList s.toList).map String.mk

/-- Joining with newline, the embedding of "\n".join(lines). -/
def joinLines (lines : List String) : String :=
  String.intercalate "\n" lines

/-- Decision procedure for the Python substring test (pat in l). -/
def containsSubList (l pat : List Char) : Bool :=
  match l with
  | [] => pat.isPrefixOf []
  | _ :: rest => pat.isPrefixOf l || containsSubList rest pat

/-- Embedding of the Python substring test (pat in s). -/
def containsSub (s pat : String) : Bool :=
  containsSubList s.toList pat.toList

/-- Suffix of l after the first occurrence of pat; none when pat does not
occur.  Used to embed regular expressions of the form A.*?B restricted to a
single line: B must occur after the first occurrence of A. -/
def afterFirstSub (pat : List Char) : List Char → Option (List Char)
  | [] => if pat.isPrefixOf ([] : List Char) then some [] else none
  | l@(_ :: rest) =>
    if pat.isPrefixOf l then some (l.drop pat.length) else afterFirstSub pat rest

/-- Splits l at the first occurrence of pat, returning the part before and
the part after; none when pat does not occur. -/
def splitFirstSub (pat : List Char) : List Char → Option (List Char × List Char)
  | [] => if pat.isPrefixOf ([] : List Char) then some ([], []) else none
  | l@(c :: rest) =>
    if pat.isPrefixOf l then some ([], l.drop pat.length)
    else (splitFirstSub pat rest).map (fun p => (c :: p.1, p.2))

/-- Part of l before the first occurrence of pat (all of l when absent),
the embedding of s.split(pat, 1)[0] for a nonempty pat. -/
def takeUntilSub (pat : List Char) : List Char → List Char
  | [] => []
  | l@(c :: rest) =>
    if pat ≠ [] ∧ pat.isPrefixOf l then [] else c :: takeUntilSub pat rest

/-- Embedding of Python str.count for a nonempty pattern: the number of
non-overlapping occurrences, scanning left to right. -/
def countOccurGo (pat : List Char) (fuel : Nat) (l : List Char) : Nat :=
  match fuel with
  | 0 => 0
  | fuel + 1 =>
    match l with
    | [] => 0
    | c :: rest =>
      if pat ≠ [] ∧ pat.isPrefixOf (c :: rest) then
        countOccurGo pat fuel ((c :: rest).drop pat.length) + 1
      else countOccurGo pat fuel rest

/-- Entry point of countOccurGo; the fuel is the text length, which the
scan can never exhaust because every step shortens the text. -/
def countOccurList (pat l : List Char) : Nat :=
  countOccurGo pat l.length l

/-- String version of countOccurList. -/
def countOccur (s pat : String) : Nat :=
  countOccurList pat.toList s.toList

/-- Embedding of Python str.replace for a nonempty pattern: every
non-overlapping occurrence of pat is replaced by repl, scanning left to
right. -/
def replaceAllGo (pat repl : List Char) (fuel : Nat) (l : List Char) : List Char :=
  match fuel with
  | 0 => l
  | fuel + 1 =>
    match l with
    | [] => []
    | c :: rest =>
      if pat ≠ [] ∧ pat.isPrefixOf (c :: rest) then
        repl ++ replaceAllGo pat repl fuel ((c :: rest).drop pat.length)
      else c :: replaceAllGo pat repl fuel rest

/-- Entry point of replaceAllGo; the fuel is the text length, which the
scan can never exhaust because every step shortens the text. -/
def replaceAllList (pat repl l : List Char) : List Char :=
  replaceAllGo pat repl l.length l

/-- String version of replaceAllList. -/
def replaceAll (s pat repl : String) : String :=
  String.mk (replaceAllList pat.toList repl.toList s.toList)

/-- Embedding of line.split(" ") followed by dropping empty pieces, i.e. the
number of space-separated words of a line (jocasta/common.py uses
len([x for x in line.split(" ") if x])). -/
def countWordsList : List Char → Nat → Nat
  | [], 0 => 0
  | [], _ + 1 => 1
  | c :: rest, cur =>
    if c = ' ' then (if cur = 0 then 0 else 1) + countWordsList rest 0
    else countWordsList rest (cur + 1)

/-- Number of nonempty space-separated words of a line. -/
def countWords (s : String) : Nat :=
  countWordsList s.toList 0

/-! ## Fixed regular expressions of the source

The source uses a handful of fixed regular expressions over single lines or
whole texts.  Each is embedded as an executable scanner.  In every one of
these patterns each repeated character class is followed by a character that
cannot belong to the class, so the greedy Python match at a given start
position is the maximal-munch match, and a search succeeds exactly when the
maximal-munch match succeeds at some start position. -/

/-- Character class [A-z] of the source patterns: ASCII codes 65 to 122. -/
def isAZClass (c : Char) : Bool :=
  65 ≤ c.toNat && c.toNat ≤ 122

/-- Matches the pattern [0-9]+:[0-9]+, [0-9]+ [A-z]+ 20[0-9]\x7b2\x7d at the
start of l (the timestamp shape used in archiver.py for the Nominated by
field and for support votes). -/
def matchTimestampAt (l : List Char) : Bool :=
  let d1 := l.takeWhile Char.isDigit
  let r1 := l.dropWhile Char.isDigit
  if d1 = [] then false else
  match r1 with
  | ':' :: r2 =>
    let d2 := r2.takeWhile Char.isDigit
    let r3 := r2.dropWhile Char.isDigit
    if d2 = [] then false else
    match r3 with
    | ',' :: ' ' :: r4 =>
      let d3 := r4.takeWhile Char.isDigit
      let r5 := r4.dropWhile Char.isDigit
      if d3 = [] then false else
      match r5 with
      | ' ' :: r6 =>
        let w := r6.takeWhile isAZClass
        let r7 := r6.dropWhile isAZClass
        if w = [] then false else
        match r7 with
        | ' ' :: '2' :: '0' :: a :: b :: _ => a.isDigit && b.isDigit
        | _ => false
      | _ => false
    | _ => false
  | _ => false

/-- Search over all start positions for matchTimestampAt, embedding
re.search with the timestamp pattern. -/
def hasTimestampList : List Char → Bool
  | [] => matchTimestampAt []
  | l@(_ :: rest) => matchTimestampAt l || hasTimestampList rest

/-- Decides whether s contains a timestamp of the shape
[0-9]+:[0-9]+, [0-9]+ [A-z]+ 20[0-9]\x7b2\x7d. -/
def hasTimestamp (s : String) : Bool :=
  hasTimestampList s.toList

/-- Embedding of re.search("(\\[\\[[Uu]ser:|\\\x7b\\\x7b[Uu]\\|)", vote): the
vote line carries a user reference. -/
def hasUserRef (s : String) : Bool :=
  containsSub s "[[User:" || containsSub s "[[user:" ||
    containsSub s "\x7b\x7bU|" || containsSub s "\x7b\x7bu|"

/-! ## Embedding of word_count (jocasta/common.py, lines 190-241)

The four regular-expression substitutions at the top of word_count
(lines 199-204) only rewrite the input text (unpiping wiki links, dropping
named references, dropping bold markers, normalising dashes); the counting
loop then runs on the rewritten text.  The loop and the final packaging of
the counts are embedded here over an arbitrary text, so every theorem proved
for all inputs of word_count_core in particular covers every output of the
preliminary rewriting and therefore every input of the Python word_count. -/

/-- Section headers that terminate the word count scan (FINAL_HEADERS in
jocasta/common.py, each tested as "==" ++ header appearing in the stripped
lowered line). -/
def finalHeaders : List String :=
  ["appearances", "sources", "notes and references", "external links", "bibliography",
   "filmography", "discography"]

/-- Line starters that are skipped by the word count scan (SKIP in
jocasta/common.py). -/
def skipStarters : List String :=
  ["[[file:", "\x7b\x7b", "==", "*", "|", "<!--"]

/-- Embedding of re.search("\\|source=.*?\\\x7d\\\x7d", line): the line
contains "|source=" with "\x7d\x7d" somewhere after it.  Matching after the
first occurrence of "|source=" is enough, because the text after the first
occurrence contains the text after any later occurrence. -/
def hasExcerptSourceEnd (line : String) : Bool :=
  match afterFirstSub "|source=".toList line.toList with
  | some rest => containsSubList rest "\x7d\x7d".toList
  | none => false

/-- One step of the word_count line loop: given the flags (intro,
behind_the_scenes, excerpt) and the line, either stop (none) or produce the
updated flags and the bucket of the line (0 = skip, 1 = intro, 2 = body,
3 = behind the scenes), mirroring the if/elif chain of lines 209-236. -/
def wordCountStep (intro bts excerpt : Bool) (line : String) :
    Option (Bool × Bool × Bool × Nat) :=
  if ¬bts ∧ containsSub (pyLower line) "==behind the scenes==" then
    some (intro, true, excerpt, 0)
  else if finalHeaders.any (fun h => containsSub (pyLower (pyStrip line)) ("==" ++ h)) then
    none
  else if intro ∧ ("==".toList.isPrefixOf (pyStrip line).toList) then
    some (false, bts, excerpt, 0)
  else if containsSub (pyLower line) "\x7b\x7bexcerpt" then
    -- line 218 sets excerpt and falls through to the guard of line 228,
    -- which then skips the line, so the bucket is 0
    some (intro, bts, true, 0)
  else if excerpt ∧ hasExcerptSourceEnd line then
    some (intro, bts, false, 0)
  else if skipStarters.any (fun h => h.toList.isPrefixOf (pyLower (pyStrip line)).toList) then
    some (intro, bts, excerpt, 0)
  else if (pyStrip line).toList.length = 0 then
    some (intro, bts, excerpt, 0)
  else if excerpt then
    some (intro, bts, excerpt, 0)
  else if bts then
    some (intro, bts, excerpt, 3)
  else if intro then
    some (intro, bts, excerpt, 1)
  else
    some (intro, bts, excerpt, 2)

/-- Loop of word_count over the lines, accumulating the three counts
(intro_count, body_count, bts_count). -/
def wordCountLoop : List String → Bool → Bool → Bool → Nat × Nat × Nat
  | [], _, _, _ => (0, 0, 0)
  | line :: rest, intro, bts, excerpt =>
    match wordCountStep intro bts excerpt line with
    | none => (0, 0, 0)
    | some (intro2, bts2, excerpt2, bucket) =>
      let w := countWords line
      let (i, b, bt) := wordCountLoop rest intro2 bts2 excerpt2
      if bucket = 1 then (i + w, b, bt)
      else if bucket = 2 then (i, b + w, bt)
      else if bucket = 3 then (i, b, bt + w)
      else (i, b, bt)

/-- Intro/body/behind-the-scenes counts of word_count for a text. -/
def wordCountCounts (text : String) : Nat × Nat × Nat :=
  wordCountLoop (splitLines text) true false false

/-- Embedding of word_count (jocasta/common.py): the counting loop over the
lines plus the final packaging of lines 238-241, which swaps the intro count
into the body position whenever the computed body count is zero. -/
def word_count (text : String) : Nat × Nat × Nat × Nat :=
  let (intro_count, body_count, bts_count) := wordCountCounts text
  if body_count = 0 then
    (intro_count + body_count + bts_count, body_count, intro_count, bts_count)
  else
    (intro_count + body_count + bts_count, intro_count, body_count, bts_count)

/-! ## Embedding of remove_subpage_from_parent
(jocasta/nominations/processor.py, lines 195-236)

The parent page is assumed to exist (line 197 raises otherwise); the
function receives the parent page text and returns either an error, or none
for the retry no-op, or the new text together with the edit summary. -/

/-- Line loop of remove_subpage_from_parent (lines 209-225): drops the first
line whose stripped text equals the expected transclusion, and then the
whitespace-only lines that immediately follow it; returns the kept lines and
the found flag. -/
def removeSubpageLoop (expected : String) :
    List String → Bool → Bool → List String × Bool
  | [], found, _ => ([], found)
  | line :: rest, found, white =>
    if ¬found then
      if pyStrip line = expected then removeSubpageLoop expected rest true true
      else
        let (acc, f) := removeSubpageLoop expected rest false white
        (line :: acc, f)
    else if white then
      if pyStrip line ≠ "" then
        let (acc, f) := removeSubpageLoop expected rest found false
        (line :: acc, f)
      else removeSubpageLoop expected rest found true
    else
      let (acc, f) := removeSubpageLoop expected rest found white
      (line :: acc, f)

/-- Embedding of remove_subpage_from_parent: given the parent page text,
the subpage name and the retry/withdrawn flags, returns none for the retry
no-op (no write), some (new_text, summary) for a completed removal, and an
error for the missing-transclusion failure. -/
def remove_subpage_from_parent (text subpage : String) (retry withdrawn : Bool) :
    Except String (Option (String × String)) :=
  let expected := "\x7b\x7b/" ++ subpage ++ "\x7d\x7d"
  if ¬containsSub text expected then
    if retry then .ok none
    else .error ("Cannot find /" ++ subpage ++ " in nomination page")
  else
    let r := removeSubpageLoop expected (splitLines text) false false
    let new_text := joinLines r.1
    if ¬r.2 then
      if retry then .ok none
      else .error ("Cannot find /" ++ subpage ++ " in nomination page")
    else if withdrawn then
      .ok (some (new_text, "Archiving " ++ subpage ++ " per nominator request"))
    else
      .ok (some (new_text, "Archiving " ++ subpage))

/-- The expected transclusion line is present in the text: some line of the
page strips to exactly the transclusion. -/
def hasTransclusionLine (text subpage : String) : Bool :=
  (splitLines text).any (fun l => pyStrip l == "\x7b\x7b/" ++ subpage ++ "\x7d\x7d")

/-! ## Datetime model

Python datetime values are embedded as a civil-calendar record; timedelta
arithmetic is carried out on total minutes, and timedelta.days is the floor
of the difference in days, as in Python. -/

/-- Civil datetime with minute precision, the embedding of the Python
datetime values that the bot compares (revision timestamps, parsed objection
dates, datetime.now()). -/
structure PyDateTime where
  year : Nat
  month : Nat
  day : Nat
  hour : Nat
  minute : Nat
deriving DecidableEq, Repr

/-- Proleptic Gregorian leap-year rule. -/
def isLeapYear (y : Nat) : Bool :=
  (y % 4 = 0 && y % 100 ≠ 0) || y % 400 = 0

/-- Days in the months before month m (1-based) of a year with the given
leap flag. -/
def cumDaysBeforeMonth (m : Nat) (leap : Bool) : Nat :=
  [0, 31, 59, 90, 120, 151, 181, 212, 243, 273, 304, 334].getD (m - 1) 0 +
    (if leap && m > 2 then 1 else 0)

/-- Total minutes of a datetime from the start of year 1 of the proleptic
Gregorian calendar, giving Python-compatible datetime differences. -/
def PyDateTime.toMinutes (d : PyDateTime) : Nat :=
  (365 * (d.year - 1) + ((d.year - 1) / 4 - (d.year - 1) / 100 + (d.year - 1) / 400) +
      cumDaysBeforeMonth d.month (isLeapYear d.year) + (d.day - 1)) * 1440 +
    d.hour * 60 + d.minute

/-- Embedding of (a - b).days for Python datetimes: floor of the difference
in days, negative when a is earlier than b. -/
def pyDiffDays (a b : PyDateTime) : Int :=
  Int.fdiv ((a.toMinutes : Int) - (b.toMinutes : Int)) 1440

/-- Month names used by strftime %B. -/
def monthName (m : Nat) : String :=
  ["January", "February", "March", "April", "May", "June", "July", "August",
   "September", "October", "November", "December"].getD (m - 1) ""

/-- Zero-padded two-digit rendering used by strftime %d and %m. -/
def pad2 (n : Nat) : String :=
  if n < 10 then "0" ++ toString n else toString n

/-- Embedding of strftime("%B %d, %Y"). -/
def strftimeBdY (d : PyDateTime) : String :=
  monthName d.month ++ " " ++ pad2 d.day ++ ", " ++ toString d.year

/-- Embedding of strftime("%Y/%m/%d"). -/
def strftimeYmd (d : PyDateTime) : String :=
  toString d.year ++ "/" ++ pad2 d.month ++ "/" ++ pad2 d.day

/-- Wiki revision record: the fields of the pywikibot revision dictionaries
that the embedded functions read. -/
structure Revision where
  user : String
  timestamp : PyDateTime
  revid : Nat
deriving DecidableEq, Repr

/-! ## Nomination type configuration (jocasta/nominations/data.py, 130-158)

Only the fields read by the embedded functions are carried; the remaining
fields of the Python class (page names, icons, channel) are configuration
strings never inspected by the logic under verification. -/

structure NominationType where
  nom_type : String
  fast_review_votes : Nat
  min_review_votes : Nat
  min_total_votes : Nat
  template : String
  nomination_category : String
  notification_days : Nat
  overdue_days : Nat
deriving DecidableEq, Repr

/-! ## Approval and vote gate (jocasta/nominations/archiver.py, 292-373) -/

/-- Embedding of Archiver.check_vote_counts_for_approval (lines 355-373).
Python integer arithmetic on the thresholds is embedded through Int casts so
that the subtractions behave as in the source.  user_votes is an Int because
the caller computes it as len(votes) - found - inq_votes, which can be
negative. -/
def check_vote_counts_for_approval (nom_data : NominationType)
    (found total_votes inq_votes : Nat) (user_votes : Int) : Except String Unit :=
  if found ≥ nom_data.fast_review_votes then .ok ()
  else if found ≥ nom_data.min_review_votes ∧ total_votes ≥ nom_data.min_total_votes then
    .ok ()
  else if nom_data.nom_type = "FAN" ∧ (found : Int) ≥ (nom_data.min_review_votes : Int) + 1 ∧
      (total_votes : Int) ≥ (nom_data.min_total_votes : Int) - 1 then
    .ok ()
  else if nom_data.nom_type = "GAN" ∧ inq_votes ≥ 1 then
    if (found : Int) = (nom_data.fast_review_votes : Int) - 1 then .ok ()
    else if (found : Int) = (nom_data.min_review_votes : Int) - 1 ∧
        total_votes ≥ nom_data.min_total_votes then
      .ok ()
    else
      .error ("Nomination only has " ++ toString found ++ " AgriCorps votes, " ++
        toString inq_votes ++ " Inquisitorius votes, and " ++ toString user_votes ++
        " user votes; cannot pass yet")
  else
    .error ("Nomination only has " ++ toString found ++ " review board votes and " ++
      toString user_votes ++ " user votes, cannot pass yet")

/-- Embedding of the archiver.py line 294 search: "Nominated by" followed
by a user link opener.  The lazy dot cannot cross a newline, so some line
must contain "Nominated by" followed, after its first occurrence, by the
opener "[[User:" or the brace opener "\x7b\x7bU|". -/
def lineHasNominatorLink (l : List Char) : Bool :=
  match afterFirstSub "Nominated by".toList l with
  | some rest =>
    containsSubList rest "[[User:".toList || containsSubList rest "\x7b\x7bU|".toList
  | none => false

/-- Check of archiver.py line 294: the Nominated by field carries a user
link. -/
def hasNominatorLink (text : String) : Bool :=
  (splitLinesList text.toList).any lineHasNominatorLink

/-- Check of archiver.py line 297: the Nominated by field carries a
timestamp on the same line. -/
def lineHasNominatorDate (l : List Char) : Bool :=
  match afterFirstSub "Nominated by".toList l with
  | some rest => hasTimestampList rest
  | none => false

/-- Text-level version of lineHasNominatorDate. -/
def hasNominatorDate (text : String) : Bool :=
  (splitLinesList text.toList).any lineHasNominatorDate

/-- Check of archiver.py line 299: one of the three approval templates is
present. -/
def hasApprovedTemplate (text : String) : Bool :=
  containsSub text "\x7b\x7bACapproved|" || containsSub text "\x7b\x7bInqapproved|" ||
    containsSub text "\x7b\x7bECapproved|"

/-- Single-line check of the leak pattern of archiver.py lines 310 and 313:
an approval template opener followed on the same line by a user link
opener. -/
def lineApprovalLeak (l : List Char) : Bool :=
  let check := fun (h : String) =>
    match afterFirstSub h.toList l with
    | some rest =>
      containsSubList rest "[[User:".toList || containsSubList rest "\x7b\x7bU|".toList
    | none => false
  check "\x7b\x7bACapproved|" || check "\x7b\x7bInqapproved|" || check "\x7b\x7bECapproved|"

/-- Text-level leak check. -/
def approvalLeak (text : String) : Bool :=
  (splitLinesList text.toList).any lineApprovalLeak

/-- Splits a timestamp match of the shape
[0-9]+:[0-9]+, [0-9]+ [A-z]+ 20[0-9]\x7b2\x7d from the front of l,
returning the consumed characters and the rest. -/
def tsSplit (l : List Char) : Option (List Char × List Char) :=
  let d1 := l.takeWhile Char.isDigit
  let r1 := l.dropWhile Char.isDigit
  if d1 = [] then none else
  match r1 with
  | ':' :: r2 =>
    let d2 := r2.takeWhile Char.isDigit
    let r3 := r2.dropWhile Char.isDigit
    if d2 = [] then none else
    match r3 with
    | ',' :: ' ' :: r4 =>
      let d3 := r4.takeWhile Char.isDigit
      let r5 := r4.dropWhile Char.isDigit
      if d3 = [] then none else
      match r5 with
      | ' ' :: r6 =>
        let w := r6.takeWhile isAZClass
        let r7 := r6.dropWhile isAZClass
        if w = [] then none else
        match r7 with
        | ' ' :: '2' :: '0' :: a :: b :: r8 =>
          if a.isDigit && b.isDigit then
            some (d1 ++ [':'] ++ d2 ++ [',', ' '] ++ d3 ++ [' '] ++ w ++
              [' ', '2', '0', a, b], r8)
          else none
        | _ => none
      | _ => none
    | _ => none
  | _ => none

/-- Finds the first of the given literals at or after the current position
without crossing a newline, returning the text before the literal and the
text after it (the lazy dot of the source patterns cannot cross lines). -/
def findFirstOfNoNewline (pats : List (List Char)) : List Char → Option (List Char × List Char)
  | [] =>
    match pats.find? (fun p => p.isPrefixOf ([] : List Char)) with
    | some p => some ([], ([] : List Char).drop p.length)
    | none => none
  | l@(c :: rest) =>
    match pats.find? (fun p => p.isPrefixOf l) with
    | some p => some ([], l.drop p.length)
    | none =>
      if c = '\n' then none
      else (findFirstOfNoNewline pats rest).map (fun q => (c :: q.1, q.2))

/-- Single-match attempt for the repair substitution of archiver.py
line 311: at the current position, an approval template opener, then the
lazy dot up to a user link opener, then the lazy dot up to a space followed
by a timestamp, then the lazy dot up to the closing braces.  Returns the
replacement (group 1 followed by group 4, as in the source replacement
string) and the rest of the text after the match. -/
def matchRepairAt (l : List Char) : Option (List Char × List Char) :=
  let hdr? :=
    if "\x7b\x7bACapproved|".toList.isPrefixOf l then some "\x7b\x7bACapproved|".toList
    else if "\x7b\x7bInqapproved|".toList.isPrefixOf l then some "\x7b\x7bInqapproved|".toList
    else if "\x7b\x7bECapproved|".toList.isPrefixOf l then some "\x7b\x7bECapproved|".toList
    else none
  match hdr? with
  | none => none
  | some hdr =>
    match findFirstOfNoNewline ["[[User:".toList, "\x7b\x7bU|".toList] (l.drop hdr.length) with
    | none => none
    | some (_, afterUser) =>
      match repairGroup4Scan afterUser with
      | none => none
      | some (g4, rest) => some (hdr ++ g4, rest)
where
  /-- Scans for the earliest position holding a space, a timestamp and the
  lazily closed braces, as the backtracking engine would. -/
  repairGroup4Scan : List Char → Option (List Char × List Char)
    | [] => none
    | c :: rest =>
      if c = '\n' then none
      else
        let here : Option (List Char × List Char) :=
          if c = ' ' then
            match tsSplit rest with
            | some (ts, r2) =>
              match findFirstOfNoNewline ["\x7d\x7d".toList] r2 with
              | some (mid, after) => some (ts ++ mid ++ "\x7d\x7d".toList, after)
              | none => none
            | none => none
          else none
        match here with
        | some x => some x
        | none => repairGroup4Scan rest

/-- Global substitution loop of re.sub for the repair pattern; the fuel is
the text length, which the scan can never exhaust because every match
consumes at least the template opener. -/
def repairScanGo (fuel : Nat) (l : List Char) : List Char :=
  match fuel with
  | 0 => l
  | fuel + 1 =>
    match l with
    | [] => []
    | c :: rest =>
      match matchRepairAt l with
      | some (repl, after) => repl ++ repairScanGo fuel after
      | none => c :: repairScanGo fuel rest

/-- Embedding of the repair substitution of archiver.py lines 311-312,
which strips a leaked username from the approval template parameters. -/
def repairApproval (text : String) : String :=
  String.mk (repairScanGo text.toList.length text.toList)

/-- Modelled from the spec: extract_support_section is imported by
archiver.py from jocasta.common but is absent from the repository source.
The spec (section 4.2, step 8) describes the counted region as the text
between a Support and an Object section marker, and the analogous
in-repository helper extract_support_votes (objection.py, line 70) splits
on the ====Support==== and ====Object==== headings; the archiver passes the
lowercased page text, so the lowercased headings are matched here. -/
def extract_support_section (text : String) : String :=
  String.mk (takeUntilSub "====object====".toList
    ((afterFirstSub "====support====".toList text.toList).getD text.toList))

/-- Vote lines of the support section (archiver.py line 333): the stripped
lines that start with a hash. -/
def supportVotes (sec : String) : List String :=
  ((splitLines sec).map pyStrip).filter (fun v => "#".toList.isPrefixOf v.toList)

/-- Tally loop of archiver.py lines 339-353: a vote without a user
reference counts toward missing_user; otherwise a vote without a timestamp
counts toward missing_date (the source uses elif, so a vote missing both is
tallied only as missing a username). -/
def check_vote_fields (votes : List String) : Except String Unit :=
  let missing_user := votes.countP (fun v => !hasUserRef v)
  let missing_date := votes.countP (fun v => hasUserRef v && !hasTimestamp v)
  if missing_date ≠ 0 ∧ missing_user ≠ 0 then
    .error (toString missing_date ++ " support votes are missing dates, and " ++
      toString missing_user ++ " votes are missing usernames")
  else if missing_date ≠ 0 then
    .error (toString missing_date ++ " support votes are missing dates")
  else if missing_user ≠ 0 then
    .error (toString missing_user ++ " support votes are missing usernames")
  else .ok ()

/-- Inputs of Archiver.check_approval_and_fields that the source reads from
the outside world: the nomination page name and text, the timestamp of the
page first revision, the current time, the timezone offset of the bot, and
the page membership in the sufficient-votes category. -/
structure ApprovalContext where
  name : String
  text : String
  firstRevision : PyDateTime
  now : PyDateTime
  timezone_offset : Int
  inVotesCategory : Bool

/-- Elapsed days computed by archiver.py line 317: the difference between
now shifted by (timezone_offset + 2) hours and the first revision
timestamp, in whole days. -/
def approvalDiffDays (ctx : ApprovalContext) : Int :=
  Int.fdiv ((ctx.now.toMinutes : Int) + (ctx.timezone_offset + 2) * 60 -
    (ctx.firstRevision.toMinutes : Int)) 1440

/-- Vote counting of archiver.py lines 330-337 followed by the decision
table call and the per-vote tally: the stage of check_approval_and_fields
reached once the two-day age gate has passed, over the page text after the
possible username repair. -/
def check_votes_stage (ctx : ApprovalContext) (text : String)
    (nom_data : NominationType) (retry : Bool) : Except String Unit :=
  let days := approvalDiffDays ctx
  if ¬ctx.inVotesCategory then
    if retry then .ok ()
    else .error "Nomination page lacks the number of sufficient votes"
  else if days ≥ 7 then .ok ()
  else
    let sec := extract_support_section (pyLower text)
    let votes := supportVotes sec
    let found := countOccur sec nom_data.template
    let inq := if nom_data.nom_type = "FAN" then 0 else countOccur sec "\x7b\x7binq\x7d\x7d"
    let user_votes := (votes.length : Int) - (found : Int) - (inq : Int)
    match check_vote_counts_for_approval nom_data found votes.length inq user_votes with
    | .error e => .error e
    | .ok _ => check_vote_fields votes

/-- Embedding of Archiver.check_approval_and_fields (archiver.py, lines
292-353): field checks, approval-template checks with username repair, the
two-day age gate, then the category, grace and vote stage of
check_votes_stage. -/
def check_approval_and_fields (ctx : ApprovalContext) (nom_data : NominationType)
    (retry : Bool) : Except String Unit :=
  if ¬hasNominatorLink ctx.text then
    .error "Nominated by field lacks a link to nominator\x27s userpage"
  else if ¬hasNominatorDate ctx.text then
    .error "Nominated by field lacks nomination date"
  else if ¬hasApprovedTemplate ctx.text then
    .error "Nomination page lacks the approved template"
  else
    let text := if approvalLeak ctx.text then repairApproval ctx.text else ctx.text
    if approvalLeak text then
      .error "Approval template contains username, and was unable to remove it"
    else
      let days := approvalDiffDays ctx
      if days < 2 then
        .error ("Nomination for " ++ ctx.name ++ " is only " ++ toString days ++
          " days old, cannot pass yet.")
      else check_votes_stage ctx text nom_data retry

/-! ## Talk-page merge engine (jocasta/nominations/talk_page.py) -/

/-- Embedding of build_history_text (talk_page.py, lines 6-37): renders the
two history rows and the footer for the talk page. -/
def build_history_text (nom_type result link : String) (start completed : Revision) :
    String :=
  let rps : String × String × String :=
    if result = "Success" then (result, nom_type ++ "N", nom_type)
    else if result = "Withdrawn" then (result, nom_type ++ "N", "F" ++ nom_type ++ "N")
    else if result = "Kept" then (result, nom_type ++ "R", nom_type)
    else if result = "Probation" then (result, nom_type ++ "R", "P" ++ nom_type)
    else ("Failure", nom_type ++ "N", "F" ++ nom_type ++ "N")
  let result2 := rps.1
  let process := rps.2.1
  let status := rps.2.2
  "\x7b\x7bAhm\n|date=" ++ strftimeBdY start.timestamp ++
    "\n|oldid=" ++ toString start.revid ++
    "\n|process=" ++ process ++
    "\n|result=" ++ result2 ++
    "\n\x7d\x7d\n\x7b\x7bAhm\n|date=" ++ strftimeBdY completed.timestamp ++
    "\n|oldid=" ++ toString completed.revid ++
    "\n|process=" ++ status ++
    "\n|user=" ++ start.user ++
    "\n|link=" ++ link ++
    "\n\x7d\x7d\n\x7b\x7bAhf|status=" ++ status ++ "\x7d\x7d"

/-- Tests for the bare or former status banner lines that the merge engine
strips (talk_page.py, lines 81-86). -/
def isStatusBannerLine (line : String) : Bool :=
  containsSub line "\x7b\x7bCA\x7d\x7d" || containsSub line "\x7b\x7bFA\x7d\x7d" ||
    containsSub line "\x7b\x7bGA\x7d\x7d"

/-- Former status banner test of talk_page.py line 84. -/
def isFormerBannerLine (line : String) : Bool :=
  containsSub line "\x7b\x7bFormerCA\x7d\x7d" || containsSub line "\x7b\x7bFormerGA\x7d\x7d" ||
    containsSub line "\x7b\x7bFormerFA\x7d\x7d"

/-- Line loop of the history-wrapper branch of build_talk_page (talk_page.py
lines 79-100).  Returns the merged lines and the flag that records whether a
history-wrapper line was seen (the source sets found only on the wrapper
line, not on the footer line). -/
def buildTalkAhhLoop (nom_type history_text : String) (successful : Bool) :
    List String → Bool → List String × Bool
  | [], found => ([], found)
  | line :: rest, found =>
    if isStatusBannerLine line then buildTalkAhhLoop nom_type history_text successful rest found
    else if isFormerBannerLine line then
      buildTalkAhhLoop nom_type history_text successful rest found
    else if containsSub (pyLower line) "\x7b\x7bahh" then
      let (acc, f) := buildTalkAhhLoop nom_type history_text successful rest true
      ((if successful then ["\x7b\x7b" ++ nom_type ++ "\x7d\x7d"] else []) ++ line :: acc, f)
    else if containsSub (pyLower line) "\x7b\x7bahf" then
      let (acc, f) := buildTalkAhhLoop nom_type history_text successful rest found
      ((if ¬found then
          ["\x7b\x7bAhh\x7d\x7d"] ++ (if successful then ["\x7b\x7b" ++ nom_type ++ "\x7d\x7d"] else [])
        else []) ++ history_text :: acc, f)
    else
      let (acc, f) := buildTalkAhhLoop nom_type history_text successful rest found
      (line :: acc, f)

/-- Line loop of the talk-header branch of build_talk_page (talk_page.py
lines 113-123): inserts the banner, wrapper and entry after every talk
header line. -/
def buildTalkTHLoop (nom_type history_text : String) (successful : Bool) :
    List String → List String × Bool
  | [] => ([], false)
  | line :: rest =>
    let (acc, f) := buildTalkTHLoop nom_type history_text successful rest
    if containsSub (pyLower line) "\x7b\x7btalkheader" then
      (line :: ((if successful then ["\x7b\x7b" ++ nom_type ++ "\x7d\x7d"] else []) ++
        ["\x7b\x7bAhh\x7d\x7d", history_text] ++ acc), true)
    else (line :: acc, f)

/-- Embedding of build_talk_page (talk_page.py, lines 50-132).  The page
existence flag and current text stand for the Page argument; the project
banner map is the project_data dictionary restricted to the template
field.  Returns (old text, merged text, edit summary) or the
wrapper-not-found error of line 102. -/
def build_talk_page (talkExists : Bool) (text nom_type history_text : String)
    (successful : Bool) (project_data : List (String × String))
    (projects : List String) : Except String (String × String × String) :=
  if ¬talkExists then
    let new_lines := ["\x7b\x7bTalkheader\x7d\x7d"] ++
      (if successful then ["\x7b\x7b" ++ nom_type ++ "\x7d\x7d"] else []) ++
      ["\x7b\x7bAhh\x7d\x7d", history_text] ++
      projects.filterMap (fun p =>
        (project_data.lookup p).map (fun t => "\x7b\x7b" ++ t ++ "\x7d\x7d"))
    .ok ("", joinLines new_lines, "Creating talk page with article nomination history")
  else
    let lines := splitLines text
    let history_text := history_text ++ String.join (projects.filterMap (fun p =>
      (project_data.lookup p).bind (fun t =>
        if containsSub text t then none else some ("\n\x7b\x7b" ++ t ++ "\x7d\x7d"))))
    if containsSub (pyLower text) "\x7b\x7bahh" then
      let (new_lines, found) := buildTalkAhhLoop nom_type history_text successful lines false
      if ¬found then .error "Could not find \x7bahf\x7d template"
      else .ok (text, joinLines new_lines, "Updating talk page with article nomination history")
    else if ¬containsSub (pyLower text) "\x7b\x7btalkheader" then
      let new_lines :=
        (if successful then
          ["\x7b\x7bTalkheader\x7d\x7d", "\x7b\x7b" ++ nom_type ++ "\x7d\x7d",
            "\x7b\x7bAhh\x7d\x7d", history_text]
        else ["\x7b\x7bTalkheader\x7d\x7d", "\x7b\x7bAhh\x7d\x7d", history_text]) ++ lines
      .ok (text, joinLines new_lines, "Updating talk page with article nomination history")
    else
      let (new_lines0, found) := buildTalkTHLoop nom_type history_text successful lines
      let new_lines :=
        if ¬found then
          (if successful then ["\x7b\x7b" ++ nom_type ++ "\x7d\x7d"] else []) ++
            ["\x7b\x7bAhh\x7d\x7d", history_text] ++ new_lines0
        else new_lines0
      .ok (text, joinLines new_lines, "Updating talk page with article nomination history")

/-- Embedding of Archiver.update_talk_page (archiver.py, lines 507-523):
renders the history block, merges it through build_talk_page, and skips the
write when the existing text already carries the completed revision
oldid token.  Returns none when no write happens. -/
def update_talk_page (talkExists : Bool) (text nom_type : String)
    (successful withdrawn : Bool) (nom_page_name : String)
    (nominated completed : Revision) (project_data : List (String × String))
    (projects : List String) : Except String (Option (String × String)) :=
  let nt := if nom_type = "JA" then "CA" else nom_type
  let result := if successful then "Success" else if withdrawn then "Withdrawn" else "Failure"
  let history_text := build_history_text nt result nom_page_name nominated completed
  match build_talk_page talkExists text nt history_text successful project_data projects with
  | .error e => .error e
  | .ok (t, new_text, comment) =>
    if t ≠ "" ∧ containsSub t ("|oldid=" ++ toString completed.revid) then .ok none
    else .ok (some (new_text, comment))

/-! ## Nomination history table (archiver.py, lines 455-472) -/

/-- Row filter of update_nomination_history (archiver.py lines 460-464):
on retry, rows already present verbatim in the table text are skipped. -/
def historyRowsToWrite (text : String) (rows : List String) (retry : Bool) : List String :=
  rows.filter (fun row => ¬(retry ∧ containsSub text row))

/-- Embedding of Archiver.update_nomination_history: keeps the rows that
are not already present verbatim (on retry), returns none when nothing
remains to write, and otherwise inserts the new rows before the table
closing marker. -/
def update_nomination_history (text : String) (rows : List String) (summary : String)
    (retry : Bool) : Option (String × String) :=
  let new_lines := historyRowsToWrite text rows retry
  if new_lines.isEmpty then none
  else some (replaceAll text "|\x7d" (joinLines new_lines ++ "\n|\x7d"), summary)

/-! ## Nomination subpage archival (archiver.py, lines 375-437) -/

/-- Embedding of the vote-line substitution of archiver.py line 399:
re.sub on a line, closing every \x7b\x7b[FGC][AT]Nvotes| template with the
extra |1 parameter.  The fuel is the line length, never exhausted because a
match consumes at least the opener. -/
def replaceVotesGo (fuel : Nat) (l : List Char) : List Char :=
  match fuel with
  | 0 => l
  | fuel + 1 =>
    match l with
    | [] => []
    | c :: rest =>
      let opener? :=
        match l with
        | b1 :: b2 :: x :: y :: r =>
          if b1 = lbrace ∧ b2 = lbrace ∧ (x = 'F' ∨ x = 'G' ∨ x = 'C') ∧
              (y = 'A' ∨ y = 'T') ∧ "Nvotes|".toList.isPrefixOf r then
            some ([b1, b2, x, y] ++ "Nvotes|".toList, r.drop 7)
          else none
        | _ => none
      match opener? with
      | some (opener, afterOpener) =>
        match findFirstOfNoNewline ["\x7d\x7d".toList] afterOpener with
        | some (mid, after) =>
          opener ++ mid ++ "|1\x7d\x7d".toList ++ replaceVotesGo fuel after
        | none => c :: replaceVotesGo fuel rest
      | none => c :: replaceVotesGo fuel rest

/-- Line-level vote substitution. -/
def replaceVotesLine (line : String) : String :=
  String.mk (replaceVotesGo line.toList.length line.toList)

/-- Embedding of build_sub_page_name (jocasta/common.py, lines 263-267). -/
def build_sub_page_name (title : String) : String :=
  if countOccur title "/" > 1 then
    String.mk ((afterFirstSub "/".toList title.toList).getD title.toList)
  else "\x7b\x7bSUBPAGENAME\x7d\x7d"

/-- Line loop of archive_nomination_page (archiver.py, lines 396-414),
carrying the found and dnw_found flags and accumulating the kept lines in
order. -/
def archiveNomLoop (nomination_category word_count_text : String) :
    List String → Bool → Bool → List String × Bool
  | [], found, _ => ([], found)
  | line :: rest, found, dnw =>
    if containsSub line "ANvotes|" then
      let (acc, f) := archiveNomLoop nomination_category word_count_text rest found dnw
      (replaceVotesLine line :: acc, f)
    else if containsSub line "Nomination comments" then
      let (acc, f) := archiveNomLoop nomination_category word_count_text rest found dnw
      (line :: "*\x27\x27\x27Date Archived\x27\x27\x27: ~~~~~" ::
        ("*\x27\x27\x27Final word count\x27\x27\x27: " ++ word_count_text) :: acc, f)
    else if line = "<!-- DO NOT WRITE BELOW THIS LINE! -->" then
      archiveNomLoop nomination_category word_count_text rest found true
    else if dnw then
      if ¬found ∧ containsSub line nomination_category then
        archiveNomLoop nomination_category word_count_text rest true true
      else archiveNomLoop nomination_category word_count_text rest found true
    else if ¬found ∧ containsSub line nomination_category then
      archiveNomLoop nomination_category word_count_text rest true dnw
    else if containsSub line
        "[[Category:Status article nominations that violate the word count requirement]]" ∧
        ¬containsSub line "nowiki" then
      let (acc, f) := archiveNomLoop nomination_category word_count_text rest found dnw
      (("<nowiki>" ++ line ++ "</nowiki>") :: acc, f)
    else
      let (acc, f) := archiveNomLoop nomination_category word_count_text rest found dnw
      (line :: acc, f)

/-- Writes performed by archive_nomination_page: an optional creation of
the per-nominator archive category and an optional write of the nomination
page itself (text and summary). -/
structure NomArchiveOutcome where
  categoryWrite : Option String
  nomWrite : Option (String × String)
deriving DecidableEq, Repr

/-- Embedding of Archiver.archive_nomination_page (archiver.py, lines
375-437).  isRedirect and categoryExists stand for the two external page
queries; text is the nomination page text.  Returns the writes the function
would perform, none of them when the retry marker check of line 389 fires
first. -/
def archive_nomination_page (nomType nomination_category : String)
    (successful retry withdrawn : Bool) (isRedirect : Bool) (title text : String)
    (nominator word_count_text : String) (categoryExists : Bool) :
    Except String NomArchiveOutcome :=
  if isRedirect then .error (title ++ " is a redirect page")
  else
    let result := if successful then "successful" else if withdrawn then "withdrawn"
      else "unsuccessful"
    if retry ∧ containsSub text "The following discussion is preserved as an" then
      .ok ⟨none, none⟩
    else
      let lr := archiveNomLoop nomination_category word_count_text (splitLines text)
        false false
      let categoryWrite : Option String :=
        if categoryExists then none
        else some ("Archived nominations by \x7b\x7bU|" ++ nominator ++
          "\x7d\x7d\n\n__EXPECTUNUSEDCATEGORY__\n[[Category:Archived nominations by user|" ++
          nominator ++ "]]")
      let sort_text0 := build_sub_page_name title
      let sort_text := if ¬successful then " " ++ sort_text0 else sort_text0
      let new_lines := ("\x7b\x7bsubst:" ++ nomType ++ " archive|" ++ result ++ "\x7d\x7d") ::
        lr.1 ++
        ["[[Category:Archived nominations by User:" ++ nominator ++ "|" ++ sort_text ++ "]]",
          "</div>"]
      let new_text := joinLines new_lines
      if ¬lr.2 then
        if retry then .ok ⟨categoryWrite, none⟩
        else .error "Cannot find category in nomination page"
      else .ok ⟨categoryWrite, some (new_text, "Archiving " ++ result ++ " nomination")⟩

/-! ## Command parsers (jocasta/nominations/data.py) -/

/-- Embedding of clean_text (jocasta/common.py, lines 26-27): drops tabs,
newlines and the left-to-right mark, then strips. -/
def clean_text (t : Option String) : String :=
  pyStrip (replaceAll (replaceAll (replaceAll (t.getD "") "\t" "") "\n" "") "‎" "")

/-- Result keywords accepted by the archive command pattern, in the
backtracking order of the alternation
([Ss]uc(c)?es(s)?ful|[Uu]nsuc(c)?es(s)?ful|[Ff]ailed|[Ww]ithdrawn?|[Tt]est|[Pp]ost):
each character class [Xx] admits either case of the first letter only, each
optional letter group is tried greedily, and withdrawn is tried before
withdraw. -/
def resultKeywords : List String :=
  ["Successful", "successful", "Succesful", "succesful",
   "Sucessful", "sucessful", "Sucesful", "sucesful",
   "Unsuccessful", "unsuccessful", "Unsuccesful", "unsuccesful",
   "Unsucessful", "unsucessful", "Unsucesful", "unsucesful",
   "Failed", "failed", "Withdrawn", "withdrawn", "Withdraw", "withdraw",
   "Test", "test", "Post", "post"]

/-- Named groups captured by the archive command pattern of
ArchiveCommand.parse_command (data.py, line 66). -/
structure ArchiveGroups where
  result : String
  ntype : String
  article : String
  suffix : Option String
  no_msg : Option String
  custom : Option String
deriving DecidableEq, Repr

/-- Matches the suffix group " \(([A-z]+) nomination\)" at the front of l,
returning the matched text and the rest. -/
def matchSuffixGroup (l : List Char) : Option (List Char × List Char) :=
  match l with
  | ' ' :: '(' :: r =>
    let w := r.takeWhile isAZClass
    let r2 := r.dropWhile isAZClass
    if w = [] then none
    else if " nomination)".toList.isPrefixOf r2 then
      some ([' ', '('] ++ w ++ " nomination)".toList, r2.drop 12)
    else none
  | _ => none

/-- Matches the tail of the archive command pattern after "N: ": the lazy
article group, the optional suffix, no-message and separator groups, the
optional custom-message group and the end anchor, exploring article lengths
in ascending order (the article dot is lazy) and each optional group
greedily, as the backtracking engine does. -/
def matchArchiveTail (l : List Char) : Option ArchiveGroups :=
  go [] l
where
  /-- Tries the groups after the article at the current split. -/
  afterArticle (article rest : List Char) : Option ArchiveGroups :=
    let withSuffix :=
      match matchSuffixGroup rest with
      | some (suf, r2) => afterSuffix article (some suf) r2
      | none => none
    match withSuffix with
    | some g => some g
    | none => afterSuffix article none rest
  /-- Tries the no-message group greedily. -/
  afterSuffix (article : List Char) (suffix : Option (List Char)) (rest : List Char) :
      Option ArchiveGroups :=
    let withMsg :=
      if " (no message)".toList.isPrefixOf rest then
        afterNoMsg article suffix (some " (no message)".toList) (rest.drop 13)
      else none
    match withMsg with
    | some g => some g
    | none => afterNoMsg article suffix none rest
  /-- Tries the separator group (", " before " (") greedily, then the
  custom-message group, then the end anchor. -/
  afterNoMsg (article : List Char) (suffix no_msg : Option (List Char))
      (rest : List Char) : Option ArchiveGroups :=
    let finish := fun (r : List Char) =>
      match customTail r with
      | some custom => some (article, some custom)
      | none => if r = [] then some (article, (none : Option (List Char))) else none
    let withSep :=
      if ", ".toList.isPrefixOf rest then finish (rest.drop 2)
      else none
    let withSep2 :=
      match withSep with
      | some g => some g
      | none => if " (".toList.isPrefixOf rest then finish (rest.drop 2) else none
    let result :=
      match withSep2 with
      | some g => some g
      | none => finish rest
    result.map (fun p =>
      { result := "", ntype := "", article := String.mk p.1,
        suffix := suffix.map String.mk, no_msg := no_msg.map String.mk,
        custom := p.2.map String.mk })
  /-- Matches the optional custom group "custom message: .*?\)?" followed by
  the end anchor; the group always spans the whole remaining text when it
  succeeds. -/
  customTail (r : List Char) : Option (List Char) :=
    if "custom message: ".toList.isPrefixOf r ∧ ¬r.contains '\n' then some r else none
  /-- Lazy article scan: shorter articles first, never across a newline. -/
  go (article : List Char) : List Char → Option ArchiveGroups
    | [] => afterArticle article.reverse []
    | l@(c :: rest) =>
      match afterArticle article.reverse l with
      | some g => some g
      | none => if c = '\n' then none else go (c :: article) rest

/-- Matches the archive command pattern at the current position: a result
keyword, a space, the nomination type, "N: " and the tail. -/
def matchArchiveAt (l : List Char) : Option ArchiveGroups :=
  goKeywords resultKeywords
where
  /-- Tries each keyword alternative in order, with backtracking into the
  rest of the pattern. -/
  goKeywords : List String → Option ArchiveGroups
    | [] => none
    | kw :: kws =>
      let attempt :=
        if kw.toList.isPrefixOf l then
          match l.drop kw.length with
          | ' ' :: c1 :: 'A' :: 'N' :: ':' :: ' ' :: rest =>
            if c1 = 'C' ∨ c1 = 'G' ∨ c1 = 'F' ∨ c1 = 'J' then
              (matchArchiveTail rest).map (fun g =>
                { g with result := kw, ntype := String.mk [c1, 'A'] })
            else none
          | _ => none
        else none
      match attempt with
      | some g => some g
      | none => goKeywords kws

/-- Embedding of re.search for the archive command pattern: the leftmost
start position at which the pattern matches. -/
def searchArchiveCommand : List Char → Option ArchiveGroups
  | [] => matchArchiveAt []
  | l@(_ :: rest) =>
    match matchArchiveAt l with
    | some g => some g
    | none => searchArchiveCommand rest

/-- Embedding of the ArchiveCommand value built by parse_command. -/
structure ArchiveCommandV where
  success : Bool
  nom_type : String
  article_name : String
  suffix : String
  retry : Bool
  post_mode : Bool
  test_mode : Bool
  withdrawn : Bool
  send_message : Bool
  custom_message : Option String
deriving DecidableEq, Repr

/-- Keyword table of data.py lines 72-87: maps the lowered result keyword
to (successful, post_mode, test_mode, withdrawn), or the invalid-result
error. -/
def archiveResultFlags (result_str : String) : Except String (Bool × Bool × Bool × Bool) :=
  if result_str = "successful" ∨ result_str = "succesful" ∨
      result_str = "sucessful" ∨ result_str = "sucesful" then
    .ok (true, false, false, false)
  else if result_str = "unsuccessful" ∨ result_str = "unsuccesful" ∨
      result_str = "unsucessful" ∨ result_str = "unsucesful" ∨ result_str = "failed" then
    .ok (false, false, false, false)
  else if result_str = "withdrawn" ∨ result_str = "withdraw" then
    .ok (false, false, false, true)
  else if result_str = "test" then .ok (true, false, true, false)
  else if result_str = "post" then .ok (false, true, false, false)
  else .error ("Invalid result " ++ result_str)

/-- Field construction of ArchiveCommand.parse_command (data.py, lines
71-107) from the matched groups and the original command string. -/
def buildArchiveCommand (g : ArchiveGroups) (command : String) :
    Except String ArchiveCommandV :=
  let result_str := pyLower (clean_text (some g.result))
  match archiveResultFlags result_str with
  | .error e => .error e
  | .ok (successful, post_mode, test_mode, withdrawn) =>
    let nom_type := clean_text (some g.ntype)
    if ¬(nom_type = "CA" ∨ nom_type = "GA" ∨ nom_type = "FA") then
      .error ("Unrecognized nomination type " ++ nom_type)
    else
      let article_name := clean_text (some g.article)
      let suffix0 := clean_text g.suffix
      let suffix := if suffix0 ≠ "" then " " ++ suffix0 else suffix0
      let retry := containsSub (String.mk (takeUntilSub ":".toList command.toList)) "retry "
      let send_message := clean_text g.no_msg = ""
      let custom0 := clean_text g.custom
      let custom_message :=
        if custom0 ≠ "" then
          let c1 := pyStrip (String.mk (takeUntilSub "custom message: ".toList
            ((afterFirstSub "custom message: ".toList custom0.toList).getD [])))
          some (if c1.toList.getLast? = some ')' then
            String.mk (c1.toList.dropLast) else c1)
        else none
      .ok { success := successful, nom_type := nom_type, article_name := article_name,
            suffix := suffix, retry := retry, post_mode := post_mode,
            test_mode := test_mode, withdrawn := withdrawn,
            send_message := send_message, custom_message := custom_message }

/-- Embedding of ArchiveCommand.parse_command (data.py, lines 62-107):
strips the command, removes the escaped newlines, searches the fixed
grammar and builds the command value; a failed search is the
UnknownCommand("Invalid command") error. -/
def parse_archive_command (command : String) : Except String ArchiveCommandV :=
  let stripped := replaceAll (pyStrip command) "\\n" ""
  match searchArchiveCommand stripped.toList with
  | none => .error "Invalid command"
  | some g => buildArchiveCommand g command

/-- Embedding of the ReviewCommand value. -/
structure ReviewCommandV where
  article_name : String
  command : String
deriving DecidableEq, Repr

/-- Scans for "[Mm]ark review of " followed, within the line, by the
earliest of the given closing literals; returns the lazily captured group
between them (the embedding of the pass and probation patterns of
ReviewCommand.parse_command). -/
def searchMarkReviewOf (tails : List (List Char)) : List Char → Option (List Char)
  | [] => none
  | l@(c :: rest) =>
    let attempt :=
      if (c = 'M' ∨ c = 'm') ∧ "ark review of ".toList.isPrefixOf rest then
        (findFirstOfNoNewline tails (rest.drop 14)).map Prod.fst
      else none
    match attempt with
    | some g => some g
    | none => searchMarkReviewOf tails rest

/-- Scans for the remove/revoke verb followed by " status for "; group 1 of
the pattern is the verb itself, which is what the source passes as the
article name. -/
def searchRemoveVerb : List Char → Option String
  | [] => none
  | l@(_ :: rest) =>
    if "Remove status for ".toList.isPrefixOf l then some "Remove"
    else if "remove status for ".toList.isPrefixOf l then some "remove"
    else if "Revoke status for ".toList.isPrefixOf l then some "Revoke"
    else if "revoke status for ".toList.isPrefixOf l then some "revoke"
    else searchRemoveVerb rest

/-- Embedding of ReviewCommand.parse_command (data.py, lines 25-42).  The
create pattern ends with a lazy group that always matches the empty string,
so the captured article is empty; the remove pattern returns group 1, the
verb.  Returns none when no pattern matches (the Python function falls off
the end and returns None). -/
def parse_review_command (command : String) : Option ReviewCommandV :=
  let c := (replaceAll (pyStrip command) "\\n" "").toList
  if containsSubList c "Create review for ".toList ∨
      containsSubList c "create review for ".toList then
    some { article_name := "", command := "create" }
  else
    match searchMarkReviewOf [" as passed".toList] c with
    | some g => some { article_name := String.mk g, command := "pass" }
    | none =>
      match searchMarkReviewOf
        [" as on probation".toList, " as probation".toList, " as probed".toList] c with
      | some g => some { article_name := String.mk g, command := "probation" }
      | none =>
        match searchRemoveVerb c with
        | some v => some { article_name := v, command := "remove" }
        | none => none

/-! ## Objection trees (jocasta/nominations/objection.py)

The Python dictionaries keyed by bullet depth are embedded as association
lists in insertion order with unique keys, which is exactly the iteration
and update behaviour of a Python dict. -/

/-- Tree of one objection: the mapping from bullet depth to raw line. -/
abbrev ObjTree := List (Nat × String)

/-- Section of objection trees as built by the parser: nested flag and
tree per emitted entry. -/
abbrev ObjSection := List (Bool × ObjTree)

/-- Python dict assignment d[k] = v: updates in place, preserving the
original insertion position of an existing key. -/
def dictSet {α : Type} (m : List (Nat × α)) (k : Nat) (v : α) : List (Nat × α) :=
  match m with
  | [] => [(k, v)]
  | (k0, v0) :: rest => if k0 = k then (k0, v) :: rest else (k0, v0) :: dictSet rest k v

/-- Python membership test k in d. -/
def dictHas {α : Type} (m : List (Nat × α)) (k : Nat) : Bool :=
  m.any (fun p => p.1 == k)

/-- Python d.get(k) / d[k] lookup. -/
def dictGet {α : Type} (m : List (Nat × α)) (k : Nat) : Option α :=
  (m.find? (fun p => p.1 == k)).map Prod.snd

/-- Bullet depth of a line (re.findall("^:?(\*+)", line) on a line that
starts with a star or a colon-star): stars after the optional leading
colon. -/
def countBullets (line : String) : Nat :=
  let l := line.toList
  let l2 := match l with | ':' :: r => r | _ => l
  (l2.takeWhile (fun c => c = '*')).length

/-- Line starts an objection bullet (the filter of objection.py
line 110). -/
def isBulletLine (line : String) : Bool :=
  "*".toList.isPrefixOf line.toList || ":*".toList.isPrefixOf line.toList

/-- Embedding of build_objection_trees (objection.py, lines 86-136): the
line walk that accumulates sections of (nested, tree) pairs.  The walk
mirrors the source exactly, including the facts that a section is only
flushed by a later section header or the Comments header, that the running
tree is reset without being emitted when a depth-1 colon-star line arrives
while depth 1 is occupied, and that the nested flag persists across
trees until the next plain depth-1 line. -/
def buildTreesGo : List String → Bool → Bool → List ObjSection → ObjSection → ObjTree →
    Bool → List ObjSection
  | [], _, _, sections, _, _, _ => sections
  | line :: rest, objFound, initFound, sections, curSec, curTree, nested =>
    if objFound then
      if containsSub line "===Comments===" then
        sections ++ [curSec ++ [(nested, curTree)]]
      else if "===".toList.isPrefixOf line.toList then
        if initFound then
          buildTreesGo rest true true (sections ++ [curSec ++ [(nested, curTree)]])
            [] [] nested
        else buildTreesGo rest true true sections [] [] nested
      else if ¬isBulletLine line then
        buildTreesGo rest true initFound sections curSec curTree nested
      else
        let b := countBullets line
        if b = 1 ∧ ":*".toList.isPrefixOf line.toList ∧ dictHas curTree 1 then
          buildTreesGo rest true initFound sections curSec (dictSet [] b line) nested
        else if b = 1 then
          buildTreesGo rest true initFound sections (curSec ++ [(nested, curTree)])
            (dictSet [] b line) false
        else if nested ∧ dictHas curTree b then
          buildTreesGo rest true initFound sections (curSec ++ [(nested, curTree)])
            (dictSet (curTree.filter (fun p => p.1 < b)) b line) nested
        else if b = 2 ∧ dictHas curTree 2 then
          buildTreesGo rest true initFound sections (curSec ++ [(true, curTree)])
            (dictSet (curTree.filter (fun p => p.1 < b)) b line) true
        else
          buildTreesGo rest true initFound sections curSec (dictSet curTree b line) nested
    else if containsSub line "===Object===" then
      buildTreesGo rest true initFound sections curSec curTree nested
    else buildTreesGo rest false initFound sections curSec curTree nested

/-- Embedding of build_objection_trees over the raw lines. -/
def build_objection_trees (lines : List String) : List ObjSection :=
  buildTreesGo lines false false [] [] [] false

/-- Embedding of re.sub("^(:?\*+)[ ]*", "\\1<s>", v): inserts the strike
opener after the leading bullets, dropping the spaces the pattern
consumed; the line is unchanged when the pattern does not match. -/
def reSubBulletStrike (v : String) : String :=
  let l := v.toList
  let pre : List Char × List Char := match l with | ':' :: r => ([':'], r) | _ => ([], l)
  let stars := pre.2.takeWhile (fun c => c = '*')
  if stars = [] then v
  else String.mk (pre.1 ++ stars ++ "<s>".toList ++
    ((pre.2.dropWhile (fun c => c = '*')).dropWhile (fun c => c = ' ')))

/-- One tree step of fix_missing_strikethroughs (objection.py, lines
141-157): the possible strike insertion on line 1 or line 2 and the
running strike balance update.  none embeds the Python KeyError raised when
the tree has no depth-1 line. -/
def fixStrikeStep (n : Bool) (t : ObjTree) (sdiff : Int) : Option (ObjTree × Int) :=
  let step1 : Option ObjTree :=
    if sdiff > 0 ∧ ¬n then
      match dictGet t 1 with
      | none => none
      | some v =>
        if ¬containsSub v "<s>" then some (dictSet t 1 (reSubBulletStrike v))
        else some t
    else some t
  match step1 with
  | none => none
  | some t1 =>
    let t2 :=
      if sdiff > 0 ∧ n ∧ ¬(sdiff > 0 ∧ ¬n) then
        match dictGet t1 2 with
        | some v => if ¬containsSub v "<s>" then dictSet t1 2 (reSubBulletStrike v) else t1
        | none => t1
      else t1
    match dictGet t2 1 with
    | none => none
    | some v1 =>
      let s2 := sdiff + (countOccur v1 "<s>" : Int) - (countOccur v1 "</s>" : Int)
      let s3 :=
        if n then
          match dictGet t2 2 with
          | some v2 => s2 + (countOccur v2 "<s>" : Int) - (countOccur v2 "</s>" : Int)
          | none => s2
        else s2
      some (t2, s3)

/-- Embedding of fix_missing_strikethroughs (objection.py, lines 139-157)
over a section, threading the strike balance; empty trees are passed over
untouched, as in the source. -/
def fix_missing_strikethroughs : ObjSection → Int → Option ObjSection
  | [], _ => some []
  | (n, t) :: rest, sdiff =>
    if t.isEmpty then
      (fix_missing_strikethroughs rest sdiff).map (fun r => (n, t) :: r)
    else
      match fixStrikeStep n t sdiff with
      | none => none
      | some (t2, s2) =>
        (fix_missing_strikethroughs rest s2).map (fun r => (n, t2) :: r)

/-- Objection line record (objection.py, lines 22-27). -/
structure ObjectionLine where
  counter : Nat
  user : Option String
  date : Option String
  content : String
deriving DecidableEq, Repr

/-- Objection tree record (objection.py, lines 11-19). -/
structure ObjectionTree where
  user : Option String
  nested : Bool
  struck : Bool
  lines : List (Nat × ObjectionLine)
deriving DecidableEq, Repr

/-- Objection classification record (objection.py, lines 34-43). -/
structure ObjectionResult where
  nominator : Option String
  objector : Option String
  addressed : Bool
  overdue : Bool
  first_notification : Bool
  last_date : Option String
  lines : List (Nat × ObjectionLine)
deriving DecidableEq, Repr

/-- Single match of the date pattern
([0-9]{2}:[0-9]{2}, [0-9]+ [A-z]+ 20[0-9]+) \(UTC\) at the front of l,
returning the captured group. -/
def matchUKDateAt (l : List Char) : Option (List Char) :=
  match l with
  | a :: b :: ':' :: c :: d :: ',' :: ' ' :: r =>
    if a.isDigit ∧ b.isDigit ∧ c.isDigit ∧ d.isDigit then
      let day := r.takeWhile Char.isDigit
      let r2 := r.dropWhile Char.isDigit
      if day = [] then none else
      match r2 with
      | ' ' :: r3 =>
        let w := r3.takeWhile isAZClass
        let r4 := r3.dropWhile isAZClass
        if w = [] then none else
        match r4 with
        | ' ' :: '2' :: '0' :: r5 =>
          let ys := r5.takeWhile Char.isDigit
          let r6 := r5.dropWhile Char.isDigit
          if ys = [] then none else
          if " (UTC)".toList.isPrefixOf r6 then
            some ([a, b, ':', c, d, ',', ' '] ++ day ++ [' '] ++ w ++ [' ', '2', '0'] ++ ys)
          else none
        | _ => none
      | _ => none
    else none
  | _ => none

/-- Single match of the date pattern
([0-9]{2}:[0-9]{2}, [A-z]+ [0-9]+, 20[0-9]+) \(UTC\) at the front of l. -/
def matchUSDateAt (l : List Char) : Option (List Char) :=
  match l with
  | a :: b :: ':' :: c :: d :: ',' :: ' ' :: r =>
    if a.isDigit ∧ b.isDigit ∧ c.isDigit ∧ d.isDigit then
      let w := r.takeWhile isAZClass
      let r2 := r.dropWhile isAZClass
      if w = [] then none else
      match r2 with
      | ' ' :: r3 =>
        let day := r3.takeWhile Char.isDigit
        let r4 := r3.dropWhile Char.isDigit
        if day = [] then none else
        match r4 with
        | ',' :: ' ' :: '2' :: '0' :: r5 =>
          let ys := r5.takeWhile Char.isDigit
          let r6 := r5.dropWhile Char.isDigit
          if ys = [] then none else
          if " (UTC)".toList.isPrefixOf r6 then
            some ([a, b, ':', c, d, ',', ' '] ++ w ++ [' '] ++ day ++ [',', ' ', '2', '0'] ++ ys)
          else none
        | _ => none
      | _ => none
    else none
  | _ => none

/-- Leftmost search for the primary date pattern. -/
def findDateUK : List Char → Option (List Char)
  | [] => none
  | l@(_ :: rest) =>
    match matchUKDateAt l with
    | some g => some g
    | none => findDateUK rest

/-- Leftmost search for the fallback date pattern. -/
def findDateUS : List Char → Option (List Char)
  | [] => none
  | l@(_ :: rest) =>
    match matchUSDateAt l with
    | some g => some g
    | none => findDateUS rest

/-- Date extraction of objection.py lines 186-188: primary pattern first,
then the fallback. -/
def findObjectionDate (line : String) : Option String :=
  match findDateUK line.toList with
  | some g => some (String.mk g)
  | none => (findDateUS line.toList).map String.mk

/-- Single match of the user reference pattern
[\[\{]{2}[Uu]s?e?r?[\|:](.*?)[\|\]\}] at the front of l, returning the
captured group and the rest of the text after the whole match. -/
def matchUserRefAt (l : List Char) : Option (List Char × List Char) :=
  match l with
  | c1 :: c2 :: c3 :: r =>
    if (c1 = '[' ∨ c1 = lbrace) ∧ (c2 = '[' ∨ c2 = lbrace) ∧ (c3 = 'U' ∨ c3 = 'u') then
      let r1 := match r with | 's' :: t => t | _ => r
      let r2 := match r1 with | 'e' :: t => t | _ => r1
      let r3 := match r2 with | 'r' :: t => t | _ => r2
      match r3 with
      | c4 :: r4 =>
        if c4 = '|' ∨ c4 = ':' then userRefGroup r4 []
        else none
      | _ => none
    else none
  | _ => none
where
  /-- Lazy group up to the first terminator character. -/
  userRefGroup : List Char → List Char → Option (List Char × List Char)
    | [], _ => none
    | c :: r, acc =>
      if c = '|' ∨ c = ']' ∨ c = rbrace then some (acc.reverse, r)
      else if c = '\n' then none
      else userRefGroup r (c :: acc)

/-- Embedding of re.findall for the user reference pattern: all
non-overlapping matches, scanning left to right.  The fuel is the text
length, never exhausted because every match consumes at least four
characters. -/
def findUserRefsGo (fuel : Nat) (l : List Char) : List String :=
  match fuel with
  | 0 => []
  | fuel + 1 =>
    match l with
    | [] => []
    | _ :: rest =>
      match matchUserRefAt l with
      | some (g, rem) => String.mk g :: findUserRefsGo fuel rem
      | none => findUserRefsGo fuel rest

/-- All user references of a line. -/
def findUserRefs (line : String) : List String :=
  findUserRefsGo line.toList.length line.toList

/-- Embedding of is_review_note (objection.py, lines 50-51). -/
def is_review_note (s : String) : Bool :=
  containsSub (replaceAll (pyLower s) "reviewing" "review") "review note" ||
    containsSub (pyLower s) "(comment)"

/-- Strike opener test of objection.py lines 206 and 214: the line starts
with an optional colon, exactly the expected bullets, optional spaces and
the strike opener. -/
def startsStrike (nstars : Nat) (line : String) : Bool :=
  let l := line.toList
  let l1 := match l with | ':' :: r => r | _ => l
  (List.replicate nstars '*').isPrefixOf l1 &&
    "<s>".toList.isPrefixOf ((l1.drop nstars).dropWhile (fun c => c = ' '))

/-- Cross-tree scanning state of extract_actual_objections: the current
user, the accumulated per-depth dates and user ordering, and the all-done
depth (0 embeds the Python None and 0, both falsy in the source guard). -/
structure ExtractState where
  current_user : Option String
  tree_dates : List (Nat × String)
  user_ordering : List (Nat × String)
  all_done : Nat
deriving DecidableEq, Repr

/-- Per-line step of the tree scan of extract_actual_objections
(objection.py, lines 183-220), updating the shared state, the struck flag
and the tree data. -/
def extractLineStep (nested : Bool) (st : ExtractState) (struck : Bool)
    (tree_data : List (Nat × ObjectionLine)) (count : Nat) (line : String) :
    ExtractState × Bool × List (Nat × ObjectionLine) :=
  let tree_dates :=
    match findObjectionDate line with
    | some d => dictSet st.tree_dates count d
    | none => st.tree_dates
  let all_done :=
    if containsSub (pyLower line) "all done" || containsSub (pyLower line) "all handled" then
      count
    else st.all_done
  let u : List String :=
    if containsSub (pyLower line) "[[user:" || containsSub (pyLower line) "\x7b\x7bu|" then
      findUserRefs line
    else []
  let user_ordering :=
    match u.getLast? with
    | some last => dictSet st.user_ordering count last
    | none => st.user_ordering
  let current_user :=
    if count = 1 ∨ (count = 2 ∧ nested ∧ ¬struck) then
      match st.current_user, u.getLast? with
      | none, some last => some last
      | cu, _ => cu
    else st.current_user
  let struck :=
    if count = 1 then
      struck || startsStrike 1 line || is_review_note line
    else if count = 2 ∧ nested ∧ ¬struck then
      struck || startsStrike 2 line || is_review_note line
    else struck
  let tree_data := dictSet tree_data count
    { counter := count, user := dictGet user_ordering count,
      date := dictGet tree_dates count, content := line }
  ({ current_user := current_user, tree_dates := tree_dates,
     user_ordering := user_ordering, all_done := all_done }, struck, tree_data)

/-- Folds extractLineStep over the entries of one tree in insertion
order. -/
def extractTreeLines (nested : Bool) : List (Nat × String) → ExtractState → Bool →
    List (Nat × ObjectionLine) → ExtractState × Bool × List (Nat × ObjectionLine)
  | [], st, struck, td => (st, struck, td)
  | (count, line) :: rest, st, struck, td =>
    let (st2, struck2, td2) := extractLineStep nested st struck td count line
    extractTreeLines nested rest st2 struck2 td2

/-- Main loop of extract_actual_objections (objection.py, lines 160-224)
over the reversed section.  allTrees is the full reversed list, indexed by
the source through trees[i - 1] where i counts the nonempty trees processed
so far; the all-done depth is copied from that entry when the current tree
lacks it. -/
def extractLoop (allTrees : List (Bool × ObjTree)) :
    List (Bool × ObjTree) → Nat → ExtractState → List ObjectionTree →
    Option String × List ObjectionTree
  | [], _, st, acc => (st.current_user, acc)
  | (nested, tree) :: rest, i, st, acc =>
    if tree.isEmpty then extractLoop allTrees rest i st acc
    else
      let treeAd : ObjTree × Nat :=
        if st.all_done ≠ 0 ∧ i > 0 then
          if dictHas tree st.all_done then (tree, 0)
          else
            match allTrees.get? (i - 1) with
            | some (_, prev) =>
              match dictGet prev st.all_done with
              | some pv => (dictSet tree st.all_done pv, st.all_done)
              | none => (tree, st.all_done)
            | none => (tree, st.all_done)
        else (tree, st.all_done)
      let (st2, struck, td) := extractTreeLines nested treeAd.1
        { st with all_done := treeAd.2 } false []
      extractLoop allTrees rest (i + 1) st2
        (acc ++ [{ user := st2.current_user, nested := nested, struck := struck,
                   lines := td }])

/-- Embedding of extract_actual_objections: reverses the section and scans
it, returning the inferred user and the objection trees. -/
def extract_actual_objections (sec : ObjSection) :
    Option String × List ObjectionTree :=
  extractLoop sec.reverse sec.reverse 0
    { current_user := none, tree_dates := [], user_ordering := [], all_done := 0 } []

/-- Largest depth of a tree (Python max over the dict keys); none on an
empty tree, where the source raises ValueError. -/
def maxKey {α : Type} (m : List (Nat × α)) : Option Nat :=
  (m.map Prod.fst).max?

/-- Embedding of identify_review_objections (objection.py, lines 268-279):
skips struck trees and classifies each remaining tree with
addressed = (number of depth entries is even).  none embeds the ValueError
the source raises on an empty tree. -/
def identify_review_objections (nominator : Option String) :
    List ObjectionTree → Option (List ObjectionResult)
  | [] => some []
  | t :: rest =>
    if t.struck then identify_review_objections nominator rest
    else
      match maxKey t.lines with
      | none => none
      | some mx =>
        match dictGet t.lines mx with
        | none => none
        | some target =>
          (identify_review_objections nominator rest).map (fun rs =>
            { nominator := nominator, objector := t.user, overdue := false,
              first_notification := false, addressed := t.lines.length % 2 = 0,
              last_date := target.date, lines := t.lines } :: rs)

/-- Month number of a strptime %B month name (case-insensitive, as in
Python). -/
def monthFromName (s : String) : Option Nat :=
  let low := pyLower s
  (["january", "february", "march", "april", "may", "june", "july", "august",
    "september", "october", "november", "december"].indexOf? low).map (· + 1)

/-- Numeric value of a digit run. -/
def natOfDigits (l : List Char) : Nat :=
  l.foldl (fun acc c => acc * 10 + (c.toNat - 48)) 0

/-- Parser for the strptime format "%H:%M, %d %B %Y" used by parse_date
(objection.py, lines 54-63). -/
def parseUKDate (s : String) : Option PyDateTime :=
  let l := s.toList
  let hh := l.takeWhile Char.isDigit
  let r1 := l.dropWhile Char.isDigit
  if hh = [] then none else
  match r1 with
  | ':' :: r2 =>
    let mm := r2.takeWhile Char.isDigit
    let r3 := r2.dropWhile Char.isDigit
    if mm = [] then none else
    match r3 with
    | ',' :: ' ' :: r4 =>
      let dd := r4.takeWhile Char.isDigit
      let r5 := r4.dropWhile Char.isDigit
      if dd = [] then none else
      match r5 with
      | ' ' :: r6 =>
        let w := r6.takeWhile Char.isAlpha
        let r7 := r6.dropWhile Char.isAlpha
        match r7 with
        | ' ' :: r8 =>
          let yy := r8.takeWhile Char.isDigit
          let r9 := r8.dropWhile Char.isDigit
          if yy = [] ∨ r9 ≠ [] then none else
          match monthFromName (String.mk w) with
          | none => none
          | some mo =>
            let h := natOfDigits hh
            let mi := natOfDigits mm
            let d := natOfDigits dd
            if h ≤ 23 ∧ mi ≤ 59 ∧ 1 ≤ d ∧ d ≤ 31 then
              some { year := natOfDigits yy, month := mo, day := d, hour := h, minute := mi }
            else none
        | _ => none
      | _ => none
    | _ => none
  | _ => none

/-- Parser for the fallback strptime format "%H:%M, %B %d, %Y". -/
def parseUSDate (s : String) : Option PyDateTime :=
  let l := s.toList
  let hh := l.takeWhile Char.isDigit
  let r1 := l.dropWhile Char.isDigit
  if hh = [] then none else
  match r1 with
  | ':' :: r2 =>
    let mm := r2.takeWhile Char.isDigit
    let r3 := r2.dropWhile Char.isDigit
    if mm = [] then none else
    match r3 with
    | ',' :: ' ' :: r4 =>
      let w := r4.takeWhile Char.isAlpha
      let r5 := r4.dropWhile Char.isAlpha
      match r5 with
      | ' ' :: r6 =>
        let dd := r6.takeWhile Char.isDigit
        let r7 := r6.dropWhile Char.isDigit
        if dd = [] then none else
        match r7 with
        | ',' :: ' ' :: r8 =>
          let yy := r8.takeWhile Char.isDigit
          let r9 := r8.dropWhile Char.isDigit
          if yy = [] ∨ r9 ≠ [] then none else
          match monthFromName (String.mk w) with
          | none => none
          | some mo =>
            let h := natOfDigits hh
            let mi := natOfDigits mm
            let d := natOfDigits dd
            if h ≤ 23 ∧ mi ≤ 59 ∧ 1 ≤ d ∧ d ≤ 31 then
              some { year := natOfDigits yy, month := mo, day := d, hour := h, minute := mi }
            else none
        | _ => none
      | _ => none
    | _ => none
  | _ => none

/-- Embedding of parse_date (objection.py, lines 54-63): the primary
format, then the fallback, then None. -/
def parse_date (s : String) : Option PyDateTime :=
  match parseUKDate s with
  | some d => some d
  | none => parseUSDate s

/-- Embedding of identify_overdue_objections (objection.py, lines 227-265):
skips struck trees, resolves the deepest line date (falling back to the
previous depth when missing), parses it, and emits a classification when
the notification threshold is reached, with addressed = (number of depth
entries is even).  The clock is the injected now value; none embeds the
ValueError of max on an empty tree. -/
def identify_overdue_objections (nom_data : NominationType) (now : PyDateTime)
    (nominator : Option String) :
    List ObjectionTree → Option (List ObjectionResult)
  | [] => some []
  | t :: rest =>
    if t.struck then identify_overdue_objections nom_data now nominator rest
    else
      match maxKey t.lines with
      | none => none
      | some mx =>
        match dictGet t.lines mx with
        | none => none
        | some target0 =>
          let dateOpt : Option String :=
            match target0.date with
            | some d => some d
            | none =>
              match dictGet t.lines (mx - 1) with
              | some prev => prev.date
              | none => none
          match dateOpt with
          | none => identify_overdue_objections nom_data now nominator rest
          | some ds =>
            let target := { target0 with date := some ds }
            let lines2 := dictSet t.lines mx target
            match parse_date ds with
            | none => identify_overdue_objections nom_data now nominator rest
            | some d =>
              let days := pyDiffDays now d
              (identify_overdue_objections nom_data now nominator rest).map (fun rs =>
                if days ≥ (nom_data.notification_days : Int) ∧ t.lines.length % 2 = 0 then
                  { nominator := nominator, objector := t.user,
                    overdue := days ≥ (nom_data.overdue_days : Int),
                    first_notification := days = (nom_data.notification_days : Int),
                    addressed := true, last_date := target.date, lines := lines2 } :: rs
                else if days ≥ (nom_data.notification_days : Int) then
                  { nominator := nominator, objector := t.user,
                    overdue := days ≥ (nom_data.overdue_days : Int),
                    first_notification := days = (nom_data.notification_days : Int),
                    addressed := false, last_date := target.date, lines := lines2 } :: rs
                else rs)

/-! ## Substring and line lemmas -/

/-- Outcome test for embedded Python functions that may raise. -/
def isError {α : Type} : Except String α → Bool
  | .error _ => true
  | .ok _ => false

theorem containsSubList_infix_iff (l pat : List Char) :
    containsSubList l pat = true ↔ pat <:+: l := by
  induction l with
  | nil => simp [containsSubList, List.isPrefixOf_iff_prefix]
  | cons c rest ih =>
    simp [containsSubList, List.isPrefixOf_iff_prefix, List.infix_cons_iff, ih]

theorem pyStripList_infix_self (l : List Char) : pyStripList l <:+: l := by
  unfold pyStripList
  have h1 : l.dropWhile pyIsSpaceChar <:+ l := List.dropWhile_suffix _
  have h2 : ((l.dropWhile pyIsSpaceChar).reverse.dropWhile pyIsSpaceChar).reverse <+:
      l.dropWhile pyIsSpaceChar := by
    rw [← List.reverse_suffix, List.reverse_reverse]
    exact List.dropWhile_suffix _
  exact h2.isInfix.trans h1.isInfix

theorem splitLinesList_head_prefix :
    ∀ (l : List Char) (h : List Char) (t : List (List Char)),
      splitLinesList l = h :: t → h <+: l := by
  intro l
  induction l with
  | nil => intro h t hl; simp [splitLinesList] at hl
  | cons c rest ih =>
    intro h t hl
    by_cases hc : c = '\n'
    · simp [splitLinesList, hc] at hl
      rw [hl.1]
      exact List.nil_prefix
    · simp only [splitLinesList, if_neg hc] at hl
      cases hS : splitLinesList rest with
      | nil =>
        rw [hS] at hl
        simp at hl
        simp [← hl.1, List.cons_prefix_cons]
      | cons h2 t2 =>
        rw [hS] at hl
        simp at hl
        rw [← hl.1, List.cons_prefix_cons]
        exact ⟨rfl, ih h2 t2 hS⟩

theorem infix_of_mem_splitLinesList :
    ∀ (l : List Char) (x : List Char), x ∈ splitLinesList l → x <:+: l := by
  intro l
  induction l with
  | nil => intro x hx; simp [splitLinesList] at hx
  | cons c rest ih =>
    intro x hx
    by_cases hc : c = '\n'
    · simp [splitLinesList, hc] at hx
      rcases hx with hx | hx
      · simp [hx]
      · exact (ih x hx).trans (List.suffix_cons c rest).isInfix
    · simp only [splitLinesList, if_neg hc] at hx
      cases hS : splitLinesList rest with
      | nil =>
        rw [hS] at hx
        simp at hx
        subst hx
        exact (List.prefix_cons_inj c |>.mpr List.nil_prefix).isInfix
      | cons h2 t2 =>
        rw [hS] at hx
        simp at hx
        rcases hx with hx | hx
        · subst hx
          have := splitLinesList_head_prefix rest h2 t2 hS
          exact (List.cons_prefix_cons.mpr ⟨rfl, this⟩).isInfix
        · exact (ih x (hS ▸ List.mem_cons_of_mem h2 hx)).trans
            (List.suffix_cons c rest).isInfix

theorem hasTransclusionLine_containsSub (text subpage : String)
    (h : hasTransclusionLine text subpage = true) :
    containsSub text ("\x7b\x7b/" ++ subpage ++ "\x7d\x7d") = true := by
  unfold hasTransclusionLine at h
  rw [List.any_eq_true] at h
  obtain ⟨line, hmem, hline⟩ := h
  unfold splitLines at hmem
  rw [List.mem_map] at hmem
  obtain ⟨lc, hlc, hmk⟩ := hmem
  rw [beq_iff_eq] at hline
  have hstrip : pyStripList lc = ("\x7b\x7b/" ++ subpage ++ "\x7d\x7d").toList := by
    have : pyStrip line = "\x7b\x7b/" ++ subpage ++ "\x7d\x7d" := hline
    rw [← hmk] at this
    unfold pyStrip at this
    have := congrArg String.toList this
    simpa using this
  unfold containsSub
  rw [containsSubList_infix_iff, ← hstrip]
  exact (pyStripList_infix_self lc).trans (infix_of_mem_splitLinesList _ lc hlc)

/-! ## Behaviour of the removal loop -/

theorem removeSubpageLoop_found (expected : String) (hne : expected ≠ "") :
    ∀ (lines : List String) (w : Bool),
      (removeSubpageLoop expected lines true w).2 = true ∧
      (removeSubpageLoop expected lines true w).1.countP
          (fun l => pyStrip l == expected) =
        lines.countP (fun l => pyStrip l == expected) := by
  intro lines
  induction lines with
  | nil => intro w; simp [removeSubpageLoop]
  | cons line rest ih =>
    intro w
    by_cases hw : w
    · subst hw
      by_cases hs : pyStrip line = ""
      · have hline0 : (pyStrip line == expected) = false := by
          simp only [beq_eq_false_iff_ne, ne_eq, hs]
          exact fun hcon => hne hcon.symm
        have hne2 : ¬("" = expected) := fun hcon => hne hcon.symm
        obtain ⟨h1, h2⟩ := ih true
        simp [removeSubpageLoop, hs, List.countP_cons, hline0, hne2, h1, h2]
      · obtain ⟨h1, h2⟩ := ih false
        simp [removeSubpageLoop, hs, List.countP_cons, h1, h2]
    · simp only [Bool.not_eq_true] at hw
      subst hw
      obtain ⟨h1, h2⟩ := ih false
      simp [removeSubpageLoop, List.countP_cons, h1, h2]

theorem removeSubpageLoop_search (expected : String) (hne : expected ≠ "") :
    ∀ (lines : List String) (w : Bool),
      (lines.any (fun l => pyStrip l == expected) = false →
        removeSubpageLoop expected lines false w = (lines, false)) ∧
      (lines.any (fun l => pyStrip l == expected) = true →
        (removeSubpageLoop expected lines false w).2 = true ∧
        (removeSubpageLoop expected lines false w).1.countP
            (fun l => pyStrip l == expected) + 1 =
          lines.countP (fun l => pyStrip l == expected)) := by
  intro lines
  induction lines with
  | nil => intro w; simp [removeSubpageLoop]
  | cons line rest ih =>
    intro w
    by_cases hs : pyStrip line = expected
    · constructor
      · intro hany
        simp [List.any_cons, hs] at hany
      · intro _
        obtain ⟨h1, h2⟩ := removeSubpageLoop_found expected hne rest true
        simp [removeSubpageLoop, hs, List.countP_cons, h1, h2]
    · have hline : (pyStrip line == expected) = false := by simp [hs]
      constructor
      · intro hany
        simp only [List.any_cons, hline, Bool.false_or] at hany
        simp [removeSubpageLoop, hs, (ih w).1 hany]
      · intro hany
        simp only [List.any_cons, hline, Bool.false_or] at hany
        obtain ⟨h1, h2⟩ := (ih w).2 hany
        constructor
        · simp [removeSubpageLoop, hs, h1]
        · simp [removeSubpageLoop, hs, List.countP_cons, hline]
          omega

/-- Helper: the expected transclusion string is never empty. -/
theorem expectedTransclusion_ne_empty (subpage : String) :
    "\x7b\x7b/" ++ subpage ++ "\x7d\x7d" ≠ "" := by
  intro hcon
  have := congrArg String.length hcon
  simp [String.length_append] at this
  exact absurd this.2 (by decide)

/-! ## Claim C7 -/

/-- C7. The function remove_subpage_from_parent raises an error exactly
when the expected transclusion line is absent from the parent page text and
retry is false; when it is absent and retry is true it returns without
writing; when it is present, the transclusion line is removed (the written
text has exactly one fewer line stripping to the transclusion) and the page
is written. -/
theorem C7_remove_subpage_transclusion_gate
    (text subpage : String) (retry withdrawn : Bool) :
    (isError (remove_subpage_from_parent text subpage retry withdrawn) =
      (!hasTransclusionLine text subpage && !retry))
    ∧ (hasTransclusionLine text subpage = false → retry = true →
        remove_subpage_from_parent text subpage retry withdrawn = .ok none)
    ∧ (hasTransclusionLine text subpage = true →
        ∃ newLines summary,
          remove_subpage_from_parent text subpage retry withdrawn =
            .ok (some (joinLines newLines, summary)) ∧
          newLines.countP
              (fun l => pyStrip l == "\x7b\x7b/" ++ subpage ++ "\x7d\x7d") + 1 =
            (splitLines text).countP
              (fun l => pyStrip l == "\x7b\x7b/" ++ subpage ++ "\x7d\x7d")) := by
  have hne := expectedTransclusion_ne_empty subpage
  by_cases hT : hasTransclusionLine text subpage
  · have hC := hasTransclusionLine_containsSub text subpage hT
    have hany : (splitLines text).any
        (fun l => pyStrip l == "\x7b\x7b/" ++ subpage ++ "\x7d\x7d") = true := hT
    obtain ⟨h1, h2⟩ :=
      (removeSubpageLoop_search _ hne (splitLines text) false).2 hany
    refine ⟨?_, by simp [hT], fun _ => ?_⟩
    · cases withdrawn <;>
        simp [remove_subpage_from_parent, hC, h1, hT, isError]
    · refine ⟨(removeSubpageLoop ("\x7b\x7b/" ++ subpage ++ "\x7d\x7d")
        (splitLines text) false false).1, ?_⟩
      cases withdrawn
      · exact ⟨"Archiving " ++ subpage,
          by simp [remove_subpage_from_parent, hC, h1], h2⟩
      · exact ⟨"Archiving " ++ subpage ++ " per nominator request",
          by simp [remove_subpage_from_parent, hC, h1], h2⟩
  · simp only [Bool.not_eq_true] at hT
    have hany : (splitLines text).any
        (fun l => pyStrip l == "\x7b\x7b/" ++ subpage ++ "\x7d\x7d") = false := hT
    refine ⟨?_, fun _ hr => ?_, by simp [hT]⟩
    · by_cases hC : containsSub text ("\x7b\x7b/" ++ subpage ++ "\x7d\x7d")
      · have hr := (removeSubpageLoop_search _ hne (splitLines text) false).1 hany
        cases retry <;>
          simp [remove_subpage_from_parent, hC, hr, hT, isError]
      · cases retry <;>
          simp [remove_subpage_from_parent,
            Bool.not_eq_true _ ▸ hC, hC, hT, isError]
    · subst hr
      by_cases hC : containsSub text ("\x7b\x7b/" ++ subpage ++ "\x7d\x7d")
      · have hr2 := (removeSubpageLoop_search _ hne (splitLines text) false).1 hany
        simp [remove_subpage_from_parent, hC, hr2]
      · simp [remove_subpage_from_parent, hC]

/-- Witness for C7, applying the theorem at two concrete parent pages: one
containing the transclusion line for Foo and one not. -/
theorem C7_remove_subpage_transclusion_gate_witness :
    hasTransclusionLine "abc\n\x7b\x7b/Foo\x7d\x7d\n\ndef" "Foo" = true ∧
    (∃ newLines summary,
      remove_subpage_from_parent "abc\n\x7b\x7b/Foo\x7d\x7d\n\ndef" "Foo" false false =
        .ok (some (joinLines newLines, summary)) ∧
      newLines.countP (fun l => pyStrip l == "\x7b\x7b/" ++ "Foo" ++ "\x7d\x7d") + 1 =
        (splitLines "abc\n\x7b\x7b/Foo\x7d\x7d\n\ndef").countP
          (fun l => pyStrip l == "\x7b\x7b/" ++ "Foo" ++ "\x7d\x7d")) ∧
    hasTransclusionLine "xyz" "Foo" = false ∧
    remove_subpage_from_parent "xyz" "Foo" true false = .ok none := by
  refine ⟨by decide, ?_, by decide, ?_⟩
  · have := (C7_remove_subpage_transclusion_gate
      "abc\n\x7b\x7b/Foo\x7d\x7d\n\ndef" "Foo" false false).2.2 (by decide)
    simpa using this
  · exact (C7_remove_subpage_transclusion_gate "xyz" "Foo" true false).2.1
      (by decide) rfl

/-! ## Claim C10 -/

/-- C10. The quadruple returned by word_count has a first component equal to
the sum of the other three; when the computed body count is nonzero the
order is (total, intro, body, behind-the-scenes); when the computed body
count is zero the function returns (total, 0, intro, behind-the-scenes),
with the introduction count reported in the body position. -/
theorem C10_word_count_tuple (text : String) :
    ((word_count text).1 =
      (word_count text).2.1 + (word_count text).2.2.1 + (word_count text).2.2.2)
    ∧ ((wordCountCounts text).2.1 ≠ 0 →
        word_count text =
          ((wordCountCounts text).1 + (wordCountCounts text).2.1 +
              (wordCountCounts text).2.2,
            (wordCountCounts text).1, (wordCountCounts text).2.1,
            (wordCountCounts text).2.2))
    ∧ ((wordCountCounts text).2.1 = 0 →
        word_count text =
          ((wordCountCounts text).1 + (wordCountCounts text).2.2, 0,
            (wordCountCounts text).1, (wordCountCounts text).2.2)) := by
  rcases h : wordCountCounts text with ⟨i, bb⟩
  rcases bb with ⟨b, bt⟩
  by_cases hb : b = 0
  · subst hb
    refine ⟨?_, by simp, fun _ => ?_⟩ <;> simp [word_count, h]
  · refine ⟨?_, fun _ => ?_, by simp [hb]⟩ <;> simp [word_count, h, hb]

/-- Witness for C10, applying the theorem at a body-free text (everything
before the first section header is introduction) and at a text with a body
section. -/
theorem C10_word_count_tuple_witness :
    ((wordCountCounts "hello wookiee world").2.1 = 0 ∧
      word_count "hello wookiee world" = (3, 0, 3, 0)) ∧
    ((wordCountCounts "one two\n==History==\nthree four five").2.1 ≠ 0 ∧
      word_count "one two\n==History==\nthree four five" = (5, 2, 3, 0)) := by
  constructor
  · refine ⟨by decide, ?_⟩
    have := (C10_word_count_tuple "hello wookiee world").2.2 (by decide)
    simpa using this
  · refine ⟨by decide, ?_⟩
    have := (C10_word_count_tuple "one two\n==History==\nthree four five").2.1
      (by decide)
    simpa using this

/-! ## Claim C5 -/

/-- C5. With the nominator-field and approval-template checks passing, a
nomination page whose computed age is under 2 days makes
check_approval_and_fields raise the error naming the computed number of
days, and a page of computed age at least 2 days passes this check (the
outcome is then exactly the outcome of the later category/grace/vote
stage).  The age is the code's elapsed value: now shifted by
timezone_offset + 2 hours minus the first revision timestamp, in whole
days. -/
theorem C5_too_young_gate (ctx : ApprovalContext) (nom_data : NominationType)
    (retry : Bool)
    (hlink : hasNominatorLink ctx.text = true)
    (hdate : hasNominatorDate ctx.text = true)
    (happ : hasApprovedTemplate ctx.text = true)
    (hleak : approvalLeak ctx.text = false) :
    (approvalDiffDays ctx < 2 →
      check_approval_and_fields ctx nom_data retry =
        .error ("Nomination for " ++ ctx.name ++ " is only " ++
          toString (approvalDiffDays ctx) ++ " days old, cannot pass yet.")) ∧
    (2 ≤ approvalDiffDays ctx →
      check_approval_and_fields ctx nom_data retry =
        check_votes_stage ctx ctx.text nom_data retry) := by
  constructor
  · intro hd
    simp [check_approval_and_fields, hlink, hdate, happ, hleak, hd]
  · intro hd
    have hnd : ¬(approvalDiffDays ctx < 2) := by omega
    simp [check_approval_and_fields, hlink, hdate, happ, hleak, hnd]

/-- Witness for C5: a nomination page whose first revision is one day
before the current time yields the error naming 1 day; the same page three
days old passes the age check. -/
theorem C5_too_young_gate_witness :
    (hasNominatorLink "Nominated by [[User:Alpha]] 14:05, 3 January 2024\n\x7b\x7bACapproved|14:05, 3 January 2024\x7d\x7d" = true) ∧
    (approvalDiffDays
      { name := "NOM/Endor", text := "Nominated by [[User:Alpha]] 14:05, 3 January 2024\n\x7b\x7bACapproved|14:05, 3 January 2024\x7d\x7d",
        firstRevision := ⟨2024, 1, 3, 12, 0⟩, now := ⟨2024, 1, 4, 12, 0⟩,
        timezone_offset := 0, inVotesCategory := true } = 1) ∧
    (check_approval_and_fields
      { name := "NOM/Endor", text := "Nominated by [[User:Alpha]] 14:05, 3 January 2024\n\x7b\x7bACapproved|14:05, 3 January 2024\x7d\x7d",
        firstRevision := ⟨2024, 1, 3, 12, 0⟩, now := ⟨2024, 1, 4, 12, 0⟩,
        timezone_offset := 0, inVotesCategory := true }
      ⟨"CAN", 3, 2, 4, "\x7b\x7bab\x7d\x7d", "Category:X", 14, 30⟩ false =
      .error "Nomination for NOM/Endor is only 1 days old, cannot pass yet.") ∧
    (check_approval_and_fields
      { name := "NOM/Endor", text := "Nominated by [[User:Alpha]] 14:05, 3 January 2024\n\x7b\x7bACapproved|14:05, 3 January 2024\x7d\x7d",
        firstRevision := ⟨2024, 1, 1, 12, 0⟩, now := ⟨2024, 1, 4, 12, 0⟩,
        timezone_offset := 0, inVotesCategory := true }
      ⟨"CAN", 3, 2, 4, "\x7b\x7bab\x7d\x7d", "Category:X", 14, 30⟩ false =
      check_votes_stage
        { name := "NOM/Endor", text := "Nominated by [[User:Alpha]] 14:05, 3 January 2024\n\x7b\x7bACapproved|14:05, 3 January 2024\x7d\x7d",
          firstRevision := ⟨2024, 1, 1, 12, 0⟩, now := ⟨2024, 1, 4, 12, 0⟩,
          timezone_offset := 0, inVotesCategory := true }
        "Nominated by [[User:Alpha]] 14:05, 3 January 2024\n\x7b\x7bACapproved|14:05, 3 January 2024\x7d\x7d"
        ⟨"CAN", 3, 2, 4, "\x7b\x7bab\x7d\x7d", "Category:X", 14, 30⟩ false) := by
  refine ⟨by decide, by decide, ?_, ?_⟩
  · have := (C5_too_young_gate
      { name := "NOM/Endor", text := "Nominated by [[User:Alpha]] 14:05, 3 January 2024\n\x7b\x7bACapproved|14:05, 3 January 2024\x7d\x7d",
        firstRevision := ⟨2024, 1, 3, 12, 0⟩, now := ⟨2024, 1, 4, 12, 0⟩,
        timezone_offset := 0, inVotesCategory := true }
      ⟨"CAN", 3, 2, 4, "\x7b\x7bab\x7d\x7d", "Category:X", 14, 30⟩ false
      (by decide) (by decide) (by decide) (by decide)).1 (by decide)
    simpa using this
  · exact (C5_too_young_gate
      { name := "NOM/Endor", text := "Nominated by [[User:Alpha]] 14:05, 3 January 2024\n\x7b\x7bACapproved|14:05, 3 January 2024\x7d\x7d",
        firstRevision := ⟨2024, 1, 1, 12, 0⟩, now := ⟨2024, 1, 4, 12, 0⟩,
        timezone_offset := 0, inVotesCategory := true }
      ⟨"CAN", 3, 2, 4, "\x7b\x7bab\x7d\x7d", "Category:X", 14, 30⟩ false
      (by decide) (by decide) (by decide) (by decide)).2 (by decide)

/-! ## Claim C1 -/

/-- C1. For a nomination type configured with fast=3 board votes, min=2
board votes and 4 minimum total votes, outside the GAN reviewer-org special
case: at least 3 counted board votes pass the gate regardless of the total;
2 board votes with at least 4 total votes pass; exactly 2 board votes with
3 total votes raise the vote-deficit error naming the counted board and
user votes; and whenever the computed elapsed age is at least 7 days (with
the earlier field, age and category checks passing), the approval check
returns success without consulting any vote count. -/
theorem C1_vote_gate_decision_table :
    (∀ (nom_data : NominationType) (found total inq : Nat) (uv : Int),
      nom_data.fast_review_votes = 3 → 3 ≤ found →
      check_vote_counts_for_approval nom_data found total inq uv = .ok ()) ∧
    (∀ (nom_data : NominationType) (found total inq : Nat) (uv : Int),
      nom_data.min_review_votes = 2 → nom_data.min_total_votes = 4 →
      2 ≤ found → 4 ≤ total →
      check_vote_counts_for_approval nom_data found total inq uv = .ok ()) ∧
    (∀ (nom_data : NominationType) (inq : Nat) (uv : Int),
      nom_data.fast_review_votes = 3 → nom_data.min_review_votes = 2 →
      nom_data.min_total_votes = 4 →
      (nom_data.nom_type ≠ "GAN" ∨ inq = 0) →
      check_vote_counts_for_approval nom_data 2 3 inq uv =
        .error ("Nomination only has 2 review board votes and " ++ toString uv ++
          " user votes, cannot pass yet")) ∧
    (∀ (ctx : ApprovalContext) (nom_data : NominationType) (retry : Bool),
      hasNominatorLink ctx.text = true → hasNominatorDate ctx.text = true →
      hasApprovedTemplate ctx.text = true → approvalLeak ctx.text = false →
      ctx.inVotesCategory = true → 7 ≤ approvalDiffDays ctx →
      check_approval_and_fields ctx nom_data retry = .ok ()) := by
  refine ⟨?_, ?_, ?_, ?_⟩
  · intro nom_data found total inq uv hf hge
    have : nom_data.fast_review_votes ≤ found := by omega
    simp [check_vote_counts_for_approval, this]
  · intro nom_data found total inq uv hm ht hf2 ht4
    by_cases hfast : nom_data.fast_review_votes ≤ found
    · simp [check_vote_counts_for_approval, hfast]
    · have h2 : nom_data.min_review_votes ≤ found ∧ nom_data.min_total_votes ≤ total := by
        omega
      simp [check_vote_counts_for_approval, hfast, h2]
  · intro nom_data inq uv hf hm ht hgan
    have h4 : ¬(nom_data.nom_type = "GAN" ∧ 1 ≤ inq) := by
      rintro ⟨hg, hi⟩
      rcases hgan with hg2 | hi0
      · exact hg2 hg
      · omega
    simp only [check_vote_counts_for_approval, hf, hm, ht]
    norm_num
    rw [if_neg h4]
    rfl
  · intro ctx nom_data retry hlink hdate happ hleak hcat h7
    have h2 : 2 ≤ approvalDiffDays ctx := by omega
    have := (C5_too_young_gate ctx nom_data retry hlink hdate happ hleak).2 h2
    rw [this]
    simp [check_votes_stage, hcat, h7]

/-- Witness for C1, applying the decision-table theorem at a type
configured with fast=3, min=2, total=4 votes: 3 board votes pass with zero
total, 2 board votes with 4 total pass, 2 board votes with 3 total raise
the deficit error, and an 8-day-old page passes with an empty support
section. -/
theorem C1_vote_gate_decision_table_witness :
    check_vote_counts_for_approval ⟨"CAN", 3, 2, 4, "\x7b\x7bab\x7d\x7d", "Category:X", 14, 30⟩
      3 0 0 (-3) = .ok () ∧
    check_vote_counts_for_approval ⟨"CAN", 3, 2, 4, "\x7b\x7bab\x7d\x7d", "Category:X", 14, 30⟩
      2 4 0 2 = .ok () ∧
    check_vote_counts_for_approval ⟨"CAN", 3, 2, 4, "\x7b\x7bab\x7d\x7d", "Category:X", 14, 30⟩
      2 3 0 1 =
      .error "Nomination only has 2 review board votes and 1 user votes, cannot pass yet" ∧
    (7 ≤ approvalDiffDays
      { name := "NOM/Endor", text := "Nominated by [[User:Alpha]] 14:05, 3 January 2024\n\x7b\x7bACapproved|14:05, 3 January 2024\x7d\x7d",
        firstRevision := ⟨2024, 1, 1, 12, 0⟩, now := ⟨2024, 1, 9, 12, 0⟩,
        timezone_offset := 0, inVotesCategory := true }) ∧
    check_approval_and_fields
      { name := "NOM/Endor", text := "Nominated by [[User:Alpha]] 14:05, 3 January 2024\n\x7b\x7bACapproved|14:05, 3 January 2024\x7d\x7d",
        firstRevision := ⟨2024, 1, 1, 12, 0⟩, now := ⟨2024, 1, 9, 12, 0⟩,
        timezone_offset := 0, inVotesCategory := true }
      ⟨"CAN", 3, 2, 4, "\x7b\x7bab\x7d\x7d", "Category:X", 14, 30⟩ false = .ok () := by
  refine ⟨?_, ?_, ?_, by decide, ?_⟩
  · exact C1_vote_gate_decision_table.1 _ 3 0 0 (-3) rfl (by decide)
  · exact C1_vote_gate_decision_table.2.1 _ 2 4 0 2 rfl rfl (by decide) (by decide)
  · have := C1_vote_gate_decision_table.2.2.1
      ⟨"CAN", 3, 2, 4, "\x7b\x7bab\x7d\x7d", "Category:X", 14, 30⟩ 0 1 rfl rfl rfl
      (Or.inl (by decide))
    simpa using this
  · exact C1_vote_gate_decision_table.2.2.2
      { name := "NOM/Endor", text := "Nominated by [[User:Alpha]] 14:05, 3 January 2024\n\x7b\x7bACapproved|14:05, 3 January 2024\x7d\x7d",
        firstRevision := ⟨2024, 1, 1, 12, 0⟩, now := ⟨2024, 1, 9, 12, 0⟩,
        timezone_offset := 0, inVotesCategory := true }
      ⟨"CAN", 3, 2, 4, "\x7b\x7bab\x7d\x7d", "Category:X", 14, 30⟩ false
      (by decide) (by decide) (by decide) (by decide) (by decide) (by decide)

/-! ## Claim C6 -/

/-- C6 (amended). The per-vote tally raises an error exactly when some
counted vote lacks a user reference or a timestamp, and no error otherwise;
but the two tallies are the code tallies of the elif chain: a vote without
a user reference counts only toward the username tally even when it also
lacks a timestamp, and the date tally counts only votes that carry a user
reference and no timestamp.  Both tallies are named exactly when both code
tallies are nonzero.  The last part places the tally in context: once the
category gate passes, the age is under the grace threshold and the vote
decision table passes, the vote stage returns exactly the tally outcome. -/
theorem C6_vote_field_tally (votes : List String) :
    (check_vote_fields votes = .ok () ↔
      ∀ v ∈ votes, hasUserRef v = true ∧ hasTimestamp v = true) ∧
    (votes.countP (fun v => hasUserRef v && !hasTimestamp v) ≠ 0 →
      votes.countP (fun v => !hasUserRef v) ≠ 0 →
      check_vote_fields votes =
        .error (toString (votes.countP (fun v => hasUserRef v && !hasTimestamp v)) ++
          " support votes are missing dates, and " ++
          toString (votes.countP (fun v => !hasUserRef v)) ++
          " votes are missing usernames")) ∧
    (votes.countP (fun v => hasUserRef v && !hasTimestamp v) ≠ 0 →
      votes.countP (fun v => !hasUserRef v) = 0 →
      check_vote_fields votes =
        .error (toString (votes.countP (fun v => hasUserRef v && !hasTimestamp v)) ++
          " support votes are missing dates")) ∧
    (votes.countP (fun v => hasUserRef v && !hasTimestamp v) = 0 →
      votes.countP (fun v => !hasUserRef v) ≠ 0 →
      check_vote_fields votes =
        .error (toString (votes.countP (fun v => !hasUserRef v)) ++
          " support votes are missing usernames")) ∧
    (∀ (ctx : ApprovalContext) (nom_data : NominationType) (retry : Bool),
      ctx.inVotesCategory = true → approvalDiffDays ctx < 7 →
      check_vote_counts_for_approval nom_data
          (countOccur (extract_support_section (pyLower ctx.text)) nom_data.template)
          (supportVotes (extract_support_section (pyLower ctx.text))).length
          (if nom_data.nom_type = "FAN" then 0
            else countOccur (extract_support_section (pyLower ctx.text)) "\x7b\x7binq\x7d\x7d")
          (((supportVotes (extract_support_section (pyLower ctx.text))).length : Int) -
            (countOccur (extract_support_section (pyLower ctx.text)) nom_data.template : Int) -
            (((if nom_data.nom_type = "FAN" then 0
              else countOccur (extract_support_section (pyLower ctx.text)) "\x7b\x7binq\x7d\x7d" : Nat)) : Int)) =
        .ok () →
      check_votes_stage ctx ctx.text nom_data retry =
        check_vote_fields (supportVotes (extract_support_section (pyLower ctx.text)))) := by
  refine ⟨?_, ?_, ?_, ?_, ?_⟩
  · have hchar : check_vote_fields votes = .ok () ↔
        (votes.countP (fun v => hasUserRef v && !hasTimestamp v) = 0 ∧
          votes.countP (fun v => !hasUserRef v) = 0) := by
      unfold check_vote_fields
      by_cases hmd : votes.countP (fun v => hasUserRef v && !hasTimestamp v) = 0 <;>
        by_cases hmu : votes.countP (fun v => !hasUserRef v) = 0 <;>
        simp [hmd, hmu]
    rw [hchar, List.countP_eq_zero, List.countP_eq_zero]
    constructor
    · rintro ⟨h1, h2⟩ v hv
      have hu : hasUserRef v = true := by
        have hx := h2 v hv
        revert hx
        cases hasUserRef v <;> simp
      refine ⟨hu, ?_⟩
      have hx := h1 v hv
      revert hx
      rw [hu]
      cases hasTimestamp v <;> simp
    · intro hall
      constructor
      · intro v hv
        simp [(hall v hv).1, (hall v hv).2]
      · intro v hv
        simp [(hall v hv).1]
  · intro hmd hmu
    simp [check_vote_fields, hmd, hmu]
  · intro hmd hmu
    simp [check_vote_fields, hmd, hmu]
  · intro hmd hmu
    simp [check_vote_fields, hmd, hmu]
  · intro ctx nom_data retry hcat hdays hok
    have h7 : ¬(7 ≤ approvalDiffDays ctx) := by omega
    simp only [check_votes_stage, hcat, h7]
    rw [hok]
    simp

/-- Counterexample for C6 as originally stated.  The nomination page below
reaches vote counting (three board-template votes pass the decision table)
and its fourth counted vote lacks both the user reference and the
timestamp: one counted vote is missing a timestamp and one is missing a
username, so both dimensions are deficient, yet the raised error names only
the username count and never mentions dates, because the elif of
archiver.py line 344 tallies a vote without a user reference only as
missing a username. -/
theorem C6_both_missing_tally_counterexample :
    (supportVotes (extract_support_section (pyLower
      "Nominated by [[User:Alpha]] 14:05, 3 January 2024\n\x7b\x7bACapproved|14:05, 3 January 2024\x7d\x7d\n====Support====\n# \x7b\x7bab\x7d\x7d [[User:Bravo]] 14:05, 3 January 2024 (UTC)\n# \x7b\x7bab\x7d\x7d [[User:Carlos]] 14:06, 3 January 2024 (UTC)\n# \x7b\x7bab\x7d\x7d [[User:Delta]] 14:07, 3 January 2024 (UTC)\n# strongest of feelings\n====Object====\ndone"))).countP
        (fun v => !hasTimestamp v) = 1 ∧
    (supportVotes (extract_support_section (pyLower
      "Nominated by [[User:Alpha]] 14:05, 3 January 2024\n\x7b\x7bACapproved|14:05, 3 January 2024\x7d\x7d\n====Support====\n# \x7b\x7bab\x7d\x7d [[User:Bravo]] 14:05, 3 January 2024 (UTC)\n# \x7b\x7bab\x7d\x7d [[User:Carlos]] 14:06, 3 January 2024 (UTC)\n# \x7b\x7bab\x7d\x7d [[User:Delta]] 14:07, 3 January 2024 (UTC)\n# strongest of feelings\n====Object====\ndone"))).countP
        (fun v => !hasUserRef v) = 1 ∧
    check_approval_and_fields
      { name := "NOM/Endor",
        text := "Nominated by [[User:Alpha]] 14:05, 3 January 2024\n\x7b\x7bACapproved|14:05, 3 January 2024\x7d\x7d\n====Support====\n# \x7b\x7bab\x7d\x7d [[User:Bravo]] 14:05, 3 January 2024 (UTC)\n# \x7b\x7bab\x7d\x7d [[User:Carlos]] 14:06, 3 January 2024 (UTC)\n# \x7b\x7bab\x7d\x7d [[User:Delta]] 14:07, 3 January 2024 (UTC)\n# strongest of feelings\n====Object====\ndone",
        firstRevision := ⟨2024, 1, 1, 12, 0⟩, now := ⟨2024, 1, 4, 12, 0⟩,
        timezone_offset := 0, inVotesCategory := true }
      ⟨"CAN", 3, 2, 4, "\x7b\x7bab\x7d\x7d", "Category:X", 14, 30⟩ false =
      .error "1 support votes are missing usernames" ∧
    containsSub "1 support votes are missing usernames" "dates" = false := by
  refine ⟨by decide, by decide, by decide, by decide⟩

/-- Witness for C6, applying the tally theorem at concrete vote lists for
all five parts. -/
theorem C6_vote_field_tally_witness :
    check_vote_fields ["# [[user:x]] 14:05, 3 january 2024 (utc)"] = .ok () ∧
    check_vote_fields ["# [[user:x]] no date here", "# nobody"] =
      .error "1 support votes are missing dates, and 1 votes are missing usernames" ∧
    check_vote_fields ["# [[user:x]] no date here"] =
      .error "1 support votes are missing dates" ∧
    check_vote_fields ["# nobody"] =
      .error "1 support votes are missing usernames" ∧
    check_votes_stage
      { name := "NOM/Endor",
        text := "Nominated by [[User:Alpha]] 14:05, 3 January 2024\n\x7b\x7bACapproved|14:05, 3 January 2024\x7d\x7d\n====Support====\n# \x7b\x7bab\x7d\x7d [[User:Bravo]] 14:05, 3 January 2024 (UTC)\n# \x7b\x7bab\x7d\x7d [[User:Carlos]] 14:06, 3 January 2024 (UTC)\n# \x7b\x7bab\x7d\x7d [[User:Delta]] 14:07, 3 January 2024 (UTC)\n# strongest of feelings\n====Object====\ndone",
        firstRevision := ⟨2024, 1, 1, 12, 0⟩, now := ⟨2024, 1, 4, 12, 0⟩,
        timezone_offset := 0, inVotesCategory := true }
      "Nominated by [[User:Alpha]] 14:05, 3 January 2024\n\x7b\x7bACapproved|14:05, 3 January 2024\x7d\x7d\n====Support====\n# \x7b\x7bab\x7d\x7d [[User:Bravo]] 14:05, 3 January 2024 (UTC)\n# \x7b\x7bab\x7d\x7d [[User:Carlos]] 14:06, 3 January 2024 (UTC)\n# \x7b\x7bab\x7d\x7d [[User:Delta]] 14:07, 3 January 2024 (UTC)\n# strongest of feelings\n====Object====\ndone"
      ⟨"CAN", 3, 2, 4, "\x7b\x7bab\x7d\x7d", "Category:X", 14, 30⟩ false =
      check_vote_fields (supportVotes (extract_support_section (pyLower
        "Nominated by [[User:Alpha]] 14:05, 3 January 2024\n\x7b\x7bACapproved|14:05, 3 January 2024\x7d\x7d\n====Support====\n# \x7b\x7bab\x7d\x7d [[User:Bravo]] 14:05, 3 January 2024 (UTC)\n# \x7b\x7bab\x7d\x7d [[User:Carlos]] 14:06, 3 January 2024 (UTC)\n# \x7b\x7bab\x7d\x7d [[User:Delta]] 14:07, 3 January 2024 (UTC)\n# strongest of feelings\n====Object====\ndone"))) := by
  refine ⟨?_, ?_, ?_, ?_, ?_⟩
  · exact (C6_vote_field_tally ["# [[user:x]] 14:05, 3 january 2024 (utc)"]).1.mpr
      (by decide)
  · have := (C6_vote_field_tally
      ["# [[user:x]] no date here", "# nobody"]).2.1 (by decide) (by decide)
    simpa using this
  · have := (C6_vote_field_tally ["# [[user:x]] no date here"]).2.2.1
      (by decide) (by decide)
    simpa using this
  · have := (C6_vote_field_tally ["# nobody"]).2.2.2.1 (by decide) (by decide)
    simpa using this
  · exact (C6_vote_field_tally []).2.2.2.2
      { name := "NOM/Endor",
        text := "Nominated by [[User:Alpha]] 14:05, 3 January 2024\n\x7b\x7bACapproved|14:05, 3 January 2024\x7d\x7d\n====Support====\n# \x7b\x7bab\x7d\x7d [[User:Bravo]] 14:05, 3 January 2024 (UTC)\n# \x7b\x7bab\x7d\x7d [[User:Carlos]] 14:06, 3 January 2024 (UTC)\n# \x7b\x7bab\x7d\x7d [[User:Delta]] 14:07, 3 January 2024 (UTC)\n# strongest of feelings\n====Object====\ndone",
        firstRevision := ⟨2024, 1, 1, 12, 0⟩, now := ⟨2024, 1, 4, 12, 0⟩,
        timezone_offset := 0, inVotesCategory := true }
      ⟨"CAN", 3, 2, 4, "\x7b\x7bab\x7d\x7d", "Category:X", 14, 30⟩ false
      rfl (by decide) (by decide)

/-! ## Claim C2 -/

/-- Helper: on an existing talk page, a successful merge always returns the
current page text as its first component. -/
theorem build_talk_page_ok_fst (text nt ht : String) (suc : Bool)
    (pd : List (String × String)) (projects : List String)
    (tr : String × String × String)
    (h : build_talk_page true text nt ht suc pd projects = .ok tr) : tr.1 = text := by
  unfold build_talk_page at h
  rw [if_neg (by simp)] at h
  simp only [] at h
  repeat' split at h
  all_goals first
  | (cases h; rfl)
  | exact Except.noConfusion h

/-- Helper: the empty text contains no nonempty substring. -/
theorem containsSub_empty_iff (p : String) (h : containsSub "" p = true) : p = "" := by
  have h2 : p.toList.isPrefixOf [] = true := h
  rw [List.isPrefixOf_iff_prefix] at h2
  have h3 := List.prefix_nil.mp h2
  cases p with
  | mk data =>
    simp at h3
    simp [h3]

/-- Helper: dropping already-present rows is idempotent. -/
theorem historyRowsToWrite_idem (text : String) (rows : List String) :
    historyRowsToWrite text (historyRowsToWrite text rows true) true =
      historyRowsToWrite text rows true := by
  unfold historyRowsToWrite
  rw [List.filter_filter]
  apply List.filter_congr
  intro a _
  cases hc : containsSub text a <;> simp [hc]

/-- C2. Replaying a completed archival with retry duplicates nothing:
archive_nomination_page performs no write when the archive marker is
already present; update_nomination_history drops every row already in the
table verbatim (present rows behave as if absent) and writes nothing when
no row remains; update_talk_page performs no write when the merge succeeds
and the existing talk text already carries the completed revision oldid
token. -/
theorem C2_retry_idempotence :
    (∀ (nomType nomination_category : String) (successful withdrawn : Bool)
      (title text nominator word_count_text : String) (categoryExists : Bool),
      containsSub text "The following discussion is preserved as an" = true →
      archive_nomination_page nomType nomination_category successful true withdrawn
        false title text nominator word_count_text categoryExists = .ok ⟨none, none⟩) ∧
    (∀ (text : String) (rows : List String) (summary : String),
      update_nomination_history text rows summary true =
        update_nomination_history text (historyRowsToWrite text rows true) summary true) ∧
    (∀ (text : String) (rows : List String) (summary : String),
      (∀ r ∈ rows, containsSub text r = true) →
      update_nomination_history text rows summary true = none) ∧
    (∀ (text nom_type : String) (successful withdrawn : Bool) (nom_page_name : String)
      (nominated completed : Revision) (pd : List (String × String))
      (projects : List String),
      isError (build_talk_page true text (if nom_type = "JA" then "CA" else nom_type)
        (build_history_text (if nom_type = "JA" then "CA" else nom_type)
          (if successful then "Success"
            else if withdrawn then "Withdrawn" else "Failure")
          nom_page_name nominated completed) successful pd projects) = false →
      containsSub text ("|oldid=" ++ toString completed.revid) = true →
      update_talk_page true text nom_type successful withdrawn nom_page_name
        nominated completed pd projects = .ok none) := by
  refine ⟨?_, ?_, ?_, ?_⟩
  · intro nomType nomination_category successful withdrawn title text nominator
      word_count_text categoryExists hmark
    simp [archive_nomination_page, hmark]
  · intro text rows summary
    unfold update_nomination_history
    rw [historyRowsToWrite_idem]
  · intro text rows summary hall
    unfold update_nomination_history
    have hnil : historyRowsToWrite text rows true = [] := by
      unfold historyRowsToWrite
      rw [List.filter_eq_nil_iff]
      intro r hr
      simp [hall r hr]
    simp [hnil]
  · intro text nom_type successful withdrawn nom_page_name nominated completed pd
      projects hbuild htoken
    unfold update_talk_page
    simp only []
    rcases hb : build_talk_page true text (if nom_type = "JA" then "CA" else nom_type)
      (build_history_text (if nom_type = "JA" then "CA" else nom_type)
        (if successful then "Success" else if withdrawn then "Withdrawn" else "Failure")
        nom_page_name nominated completed) successful pd projects with e | tr
    · rw [hb] at hbuild
      simp [isError] at hbuild
    · have hfst := build_talk_page_ok_fst _ _ _ _ _ _ _ hb
      obtain ⟨t1, t2, t3⟩ := tr
      simp only at hfst
      subst hfst
      have hne : t1 ≠ "" := by
        intro hcon
        subst hcon
        have hx := containsSub_empty_iff _ htoken
        have hlen := congrArg String.length hx
        simp [String.length_append] at hlen
        exact absurd hlen.1 (by decide)
      simp [htoken, hne]

/-- Witness for C2, applying the idempotence theorem at a completed
archival: an already-archived nomination page, a history table already
carrying the row, and a talk page already carrying the oldid token. -/
theorem C2_retry_idempotence_witness :
    archive_nomination_page "CA" "Category:X" true true false false "T"
      "intro\nThe following discussion is preserved as an archived record\nbody"
      "Alpha" "10 words" true = .ok ⟨none, none⟩ ∧
    update_nomination_history "a\nROW\n|\x7d" ["ROW"] "sum" true =
      update_nomination_history "a\nROW\n|\x7d"
        (historyRowsToWrite "a\nROW\n|\x7d" ["ROW"] true) "sum" true ∧
    update_nomination_history "a\nROW\n|\x7d" ["ROW"] "sum" true = none ∧
    update_talk_page true "\x7b\x7bAhh\x7d\x7d\n|oldid=42\n\x7b\x7bAhf|status=CA\x7d\x7d"
      "CA" false false "L" ⟨"U", ⟨2024, 1, 1, 0, 0⟩, 7⟩ ⟨"U", ⟨2024, 1, 2, 0, 0⟩, 42⟩
      [] [] = .ok none := by
  refine ⟨?_, ?_, ?_, ?_⟩
  · exact C2_retry_idempotence.1 "CA" "Category:X" true false "T"
      "intro\nThe following discussion is preserved as an archived record\nbody"
      "Alpha" "10 words" true (by decide)
  · exact C2_retry_idempotence.2.1 "a\nROW\n|\x7d" ["ROW"] "sum"
  · exact C2_retry_idempotence.2.2.1 "a\nROW\n|\x7d" ["ROW"] "sum" (by decide)
  · exact C2_retry_idempotence.2.2.2 "\x7b\x7bAhh\x7d\x7d\n|oldid=42\n\x7b\x7bAhf|status=CA\x7d\x7d"
      "CA" false false "L" ⟨"U", ⟨2024, 1, 1, 0, 0⟩, 7⟩ ⟨"U", ⟨2024, 1, 2, 0, 0⟩, 42⟩
      [] [] (by decide) (by decide)

/-! ## Claim C4 -/

/-- C4 evaluation.  A talk page whose text is exactly the history wrapper
with no closing footer takes the wrapper branch of build_talk_page, yet the
merge neither inserts the history entry nor raises an error: the found
flag of talk_page.py line 91 is set by the wrapper line, not the footer
line, so the line 101 guard (whose message names the footer) never fires,
and the entry of line 98 is appended only when a footer line is seen.  The
merged text is returned unchanged, silently dropping the entry. -/
theorem C4_missing_footer_silent_drop :
    containsSub (pyLower "\x7b\x7bAhh\x7d\x7d") "\x7b\x7bahh" = true ∧
    containsSub (pyLower "\x7b\x7bAhh\x7d\x7d") "\x7b\x7bahf" = false ∧
    build_talk_page true "\x7b\x7bAhh\x7d\x7d" "CA" "HISTORY-ENTRY" false [] [] =
      .ok ("\x7b\x7bAhh\x7d\x7d", "\x7b\x7bAhh\x7d\x7d",
        "Updating talk page with article nomination history") ∧
    containsSub "\x7b\x7bAhh\x7d\x7d" "HISTORY-ENTRY" = false := by
  refine ⟨by decide, by decide, by decide, by decide⟩

/-! ## Claim C8 -/

/-- Counterexample for C8 as originally stated.  The result keyword is not
matched case-insensitively: only the first letter of the keyword admits
both cases in the pattern, so an all-uppercase keyword fails the whole
grammar and parse_command raises the invalid-command error instead of
mapping the keyword; the same command with a lowercase keyword parses to a
successful command. -/
theorem C8_uppercase_keyword_counterexample :
    parse_archive_command "SUCCESSFUL FAN: Endor" = .error "Invalid command" ∧
    parse_archive_command "successful FAN: Endor" =
      .ok { success := true, nom_type := "FA", article_name := "Endor", suffix := "",
            retry := false, post_mode := false, test_mode := false, withdrawn := false,
            send_message := true, custom_message := none } := by
  refine ⟨by decide, by decide⟩

/-- C8 (amended).  For every matched command, the result keyword is mapped
(after lowering the matched text, so tolerant of the first letter case that
the pattern admits) to the Command flags through the fixed table:
successful and its misspellings give success; unsuccessful, its
misspellings and failed give failure; withdrawn and withdraw give failure
with the withdrawn flag; test gives test mode with success; post gives post
mode with failure. -/
theorem C8_result_keyword_table :
    (∀ (g : ArchiveGroups) (command : String) (cmd : ArchiveCommandV),
      buildArchiveCommand g command = .ok cmd →
      archiveResultFlags (pyLower (clean_text (some g.result))) =
        .ok (cmd.success, cmd.post_mode, cmd.test_mode, cmd.withdrawn)) ∧
    archiveResultFlags "successful" = .ok (true, false, false, false) ∧
    archiveResultFlags "succesful" = .ok (true, false, false, false) ∧
    archiveResultFlags "sucessful" = .ok (true, false, false, false) ∧
    archiveResultFlags "sucesful" = .ok (true, false, false, false) ∧
    archiveResultFlags "unsuccessful" = .ok (false, false, false, false) ∧
    archiveResultFlags "unsuccesful" = .ok (false, false, false, false) ∧
    archiveResultFlags "unsucessful" = .ok (false, false, false, false) ∧
    archiveResultFlags "unsucesful" = .ok (false, false, false, false) ∧
    archiveResultFlags "failed" = .ok (false, false, false, false) ∧
    archiveResultFlags "withdrawn" = .ok (false, false, false, true) ∧
    archiveResultFlags "withdraw" = .ok (false, false, false, true) ∧
    archiveResultFlags "test" = .ok (true, false, true, false) ∧
    archiveResultFlags "post" = .ok (false, true, false, false) := by
  refine ⟨?_, by decide, by decide, by decide, by decide, by decide, by decide,
    by decide, by decide, by decide, by decide, by decide, by decide, by decide⟩
  intro g command cmd h
  unfold buildArchiveCommand at h
  simp only [] at h
  rcases hf : archiveResultFlags (pyLower (clean_text (some g.result))) with e | fl
  · rw [hf] at h
    exact Except.noConfusion h
  · rw [hf] at h
    obtain ⟨a, b, c, d⟩ := fl
    simp only [] at h
    split at h
    · exact Except.noConfusion h
    · cases h
      rfl

/-- Witness for C8, applying the keyword-table theorem at a concrete
matched withdrawn command. -/
theorem C8_result_keyword_table_witness :
    buildArchiveCommand ⟨"Withdrawn", "FA", "Endor", none, none, none⟩ "w FAN: Endor" =
      .ok { success := false, nom_type := "FA", article_name := "Endor", suffix := "",
            retry := false, post_mode := false, test_mode := false, withdrawn := true,
            send_message := true, custom_message := none } ∧
    archiveResultFlags
      (pyLower (clean_text (some (ArchiveGroups.result ⟨"Withdrawn", "FA", "Endor", none, none, none⟩)))) =
      .ok (false, false, false, true) := by
  refine ⟨by decide, ?_⟩
  exact C8_result_keyword_table.1 ⟨"Withdrawn", "FA", "Endor", none, none, none⟩
    "w FAN: Endor"
    { success := false, nom_type := "FA", article_name := "Endor", suffix := "",
      retry := false, post_mode := false, test_mode := false, withdrawn := true,
      send_message := true, custom_message := none } (by decide)

/-! ## Claim C9 -/

/-- C9 evaluation.  The review-command parser returns the empty string as
the article for a create command (the lazy group at the end of the create
pattern always captures nothing) and returns the verb itself as the
article for a remove command (the source passes group 1, the
remove/revoke alternation, as the article name); the pass and probation
patterns extract the article as intended. -/
theorem C9_review_parse_eval :
    parse_review_command "Create review for Endor" =
      some { article_name := "", command := "create" } ∧
    parse_review_command "Remove status for Endor" =
      some { article_name := "Remove", command := "remove" } ∧
    parse_review_command "Revoke status for Endor" =
      some { article_name := "Revoke", command := "remove" } ∧
    parse_review_command "Mark review of Endor as passed" =
      some { article_name := "Endor", command := "pass" } ∧
    parse_review_command "Mark review of Endor as probation" =
      some { article_name := "Endor", command := "probation" } ∧
    parse_review_command "Mark review of Endor as probed" =
      some { article_name := "Endor", command := "probation" } := by
  refine ⟨by decide, by decide, by decide, by decide, by decide, by decide⟩

/-! ## Claim C3 -/

/-- Counterexample for C3 as originally stated.  The parser emits, for the
listed discussion lines, a tree whose line depths are 1 and 3 (an
objection and a counter-reply with no intermediate reply): its deepest
line has odd depth 3, the objector had the last word, yet the classifier
reports addressed = true, because identify_review_objections tests the
parity of the number of depth entries (two here), not the parity of the
deepest depth. -/
theorem C3_depth_parity_counterexample :
    build_objection_trees ["===Object===", "*obj alpha", "***deep line", "===Comments==="] =
      [[(false, []), (false, [(1, "*obj alpha"), (3, "***deep line")])]] ∧
    fix_missing_strikethroughs
      [(false, []), (false, [(1, "*obj alpha"), (3, "***deep line")])] 0 =
      some [(false, []), (false, [(1, "*obj alpha"), (3, "***deep line")])] ∧
    extract_actual_objections
      [(false, []), (false, [(1, "*obj alpha"), (3, "***deep line")])] =
      (none, [{ user := none, nested := false, struck := false,
                lines := [(1, ⟨1, none, none, "*obj alpha"⟩),
                          (3, ⟨3, none, none, "***deep line"⟩)] }]) ∧
    identify_review_objections none
      [{ user := none, nested := false, struck := false,
         lines := [(1, ⟨1, none, none, "*obj alpha"⟩),
                   (3, ⟨3, none, none, "***deep line"⟩)] }] =
      some [{ nominator := none, objector := none, addressed := true, overdue := false,
              first_notification := false, last_date := none,
              lines := [(1, ⟨1, none, none, "*obj alpha"⟩),
                        (3, ⟨3, none, none, "***deep line"⟩)] }] ∧
    maxKey [(1, (⟨1, none, none, "*obj alpha"⟩ : ObjectionLine)),
            (3, ⟨3, none, none, "***deep line"⟩)] = some 3 ∧
    ¬(3 % 2 = 0) := by
  refine ⟨by decide, by decide, by decide, by decide, by decide, by decide⟩

/-- Helper: updating an existing key keeps the number of entries. -/
theorem dictSet_length_of_isSome {α : Type} :
    ∀ (m : List (Nat × α)) (k : Nat) (v : α), (dictGet m k).isSome →
      (dictSet m k v).length = m.length := by
  intro m
  induction m with
  | nil => intro k v h; simp [dictGet] at h
  | cons p rest ih =>
    intro k v h
    obtain ⟨k0, v0⟩ := p
    by_cases hk : k0 = k
    · simp [dictSet, hk]
    · rw [dictSet]
      simp only [if_neg hk, List.length_cons]
      rw [ih k v ?_]
      have hfind : List.find? (fun p => p.1 == k) ((k0, v0) :: rest) =
          List.find? (fun p => p.1 == k) rest := by
        rw [List.find?_cons_of_neg]
        simpa using hk
      unfold dictGet at h ⊢
      rw [hfind] at h
      exact h

/-- C3 (amended).  Every objection classification emitted by
identify_review_objections or identify_overdue_objections carries
addressed = true exactly when the number of depth entries of its tree is
even; for trees whose depth set is exactly [1] (objection with no reply)
this gives addressed = false, and for depth set [1, 2] (one reply) it
gives addressed = true, but for a tree with a gap in its depths the
number of entries differs in parity from the deepest depth. -/
theorem C3_addressed_counts_levels :
    (∀ (nominator : Option String) (trees : List ObjectionTree)
        (res : List ObjectionResult),
      identify_review_objections nominator trees = some res →
      ∀ r ∈ res, ∃ t ∈ trees, t.struck = false ∧ r.lines = t.lines ∧
        (r.addressed = true ↔ t.lines.length % 2 = 0)) ∧
    (∀ (nom_data : NominationType) (now : PyDateTime) (nominator : Option String)
        (trees : List ObjectionTree) (res : List ObjectionResult),
      identify_overdue_objections nom_data now nominator trees = some res →
      ∀ r ∈ res, ∃ t ∈ trees, t.struck = false ∧ r.lines.length = t.lines.length ∧
        (r.addressed = true ↔ t.lines.length % 2 = 0)) ∧
    (∀ (nominator : Option String) (t : ObjectionTree) (res : List ObjectionResult),
      t.struck = false → t.lines.map Prod.fst = [1] →
      identify_review_objections nominator [t] = some res →
      ∀ r ∈ res, r.addressed = false) ∧
    (∀ (nominator : Option String) (t : ObjectionTree) (res : List ObjectionResult),
      t.struck = false → t.lines.map Prod.fst = [1, 2] →
      identify_review_objections nominator [t] = some res →
      ∀ r ∈ res, r.addressed = true) := by
  have main : ∀ (nominator : Option String) (trees : List ObjectionTree)
      (res : List ObjectionResult),
      identify_review_objections nominator trees = some res →
      ∀ r ∈ res, ∃ t ∈ trees, t.struck = false ∧ r.lines = t.lines ∧
        (r.addressed = true ↔ t.lines.length % 2 = 0) := by
    intro nominator trees
    induction trees with
    | nil =>
      intro res h r hr
      rw [identify_review_objections] at h
      cases h
      simp at hr
    | cons t rest ih =>
      intro res h r hr
      rw [identify_review_objections] at h
      split at h
      · obtain ⟨t2, ht2, rest2⟩ := ih res h r hr
        exact ⟨t2, List.mem_cons_of_mem t ht2, rest2⟩
      · rename_i hstruck
        split at h
        · exact Option.noConfusion h
        · split at h
          · exact Option.noConfusion h
          · rcases hrest : identify_review_objections nominator rest with _ | rs2
            · rw [hrest] at h
              exact Option.noConfusion h
            · rw [hrest] at h
              simp only [Option.map] at h
              cases h
              rcases List.mem_cons.mp hr with hre | hre
              · subst hre
                refine ⟨t, List.mem_cons_self t rest, ?_, rfl, ?_⟩
                · simpa using hstruck
                · simp
              · obtain ⟨t2, ht2, rest2⟩ := ih rs2 hrest r hre
                exact ⟨t2, List.mem_cons_of_mem t ht2, rest2⟩
  refine ⟨main, ?_, ?_, ?_⟩
  · intro nom_data now nominator trees
    induction trees with
    | nil =>
      intro res h r hr
      rw [identify_overdue_objections] at h
      cases h
      simp at hr
    | cons t rest ih =>
      intro res h r hr
      rw [identify_overdue_objections] at h
      split at h
      · obtain ⟨t2, ht2, rest2⟩ := ih res h r hr
        exact ⟨t2, List.mem_cons_of_mem t ht2, rest2⟩
      · rename_i hstruck
        split at h
        · exact Option.noConfusion h
        · rename_i mx hmx
          split at h
          · exact Option.noConfusion h
          · rename_i target0 hget
            simp only [] at h
            split at h
            · obtain ⟨t2, ht2, rest2⟩ := ih res h r hr
              exact ⟨t2, List.mem_cons_of_mem t ht2, rest2⟩
            · split at h
              · obtain ⟨t2, ht2, rest2⟩ := ih res h r hr
                exact ⟨t2, List.mem_cons_of_mem t ht2, rest2⟩
              · rcases hrest : identify_overdue_objections nom_data now nominator rest
                  with _ | rs2
                · rw [hrest] at h
                  exact Option.noConfusion h
                · rw [hrest] at h
                  simp only [Option.map] at h
                  have hlen : ∀ x : ObjectionLine,
                      (dictSet t.lines mx x).length = t.lines.length := fun x =>
                    dictSet_length_of_isSome t.lines mx x (by rw [hget]; rfl)
                  split at h <;> cases h
                  · rename_i hc1
                    rcases List.mem_cons.mp hr with hre | hre
                    · subst hre
                      exact ⟨t, List.mem_cons_self t rest, by simpa using hstruck,
                        hlen _, by simp [hc1.2]⟩
                    · obtain ⟨t2, ht2, rest2⟩ := ih rs2 hrest r hre
                      exact ⟨t2, List.mem_cons_of_mem t ht2, rest2⟩
                  · rename_i hc1
                    split at hr
                    · rcases List.mem_cons.mp hr with hre | hre
                      · rename_i hc2
                        subst hre
                        refine ⟨t, List.mem_cons_self t rest, by simpa using hstruck,
                          hlen _, ?_⟩
                        simp only [Bool.false_eq_true, false_iff]
                        intro hcon
                        exact hc1 ⟨by assumption, hcon⟩
                      · obtain ⟨t2, ht2, rest2⟩ := ih rs2 hrest r hre
                        exact ⟨t2, List.mem_cons_of_mem t ht2, rest2⟩
                    · obtain ⟨t2, ht2, rest2⟩ := ih rs2 hrest r hr
                      exact ⟨t2, List.mem_cons_of_mem t ht2, rest2⟩
  · intro nominator t res hs hk h r hr
    obtain ⟨t2, ht2, hst, hlines, hiff⟩ := main nominator [t] res h r hr
    rw [List.mem_singleton] at ht2
    subst ht2
    have hlen : t2.lines.length = 1 := by
      have := congrArg List.length hk
      simpa using this
    cases hval : r.addressed
    · rfl
    · exact absurd (hiff.mp hval) (by omega)
  · intro nominator t res hs hk h r hr
    obtain ⟨t2, ht2, hst, hlines, hiff⟩ := main nominator [t] res h r hr
    rw [List.mem_singleton] at ht2
    subst ht2
    have hlen : t2.lines.length = 2 := by
      have := congrArg List.length hk
      simpa using this
    exact hiff.mpr (by omega)

/-- Witness for C3, applying the classification theorem at four concrete
trees: the two-level gap tree, an overdue two-line tree with parsed dates,
a lone depth-1 objection and a depth-1-2 exchange. -/
theorem C3_addressed_counts_levels_witness :
    (∃ t ∈ [({ user := none, nested := false, struck := false,
               lines := [(1, ⟨1, none, none, "*obj alpha"⟩),
                         (3, ⟨3, none, none, "***deep line"⟩)] } : ObjectionTree)],
      t.struck = false ∧
      ({ nominator := none, objector := none, addressed := true, overdue := false,
         first_notification := false, last_date := none,
         lines := [(1, ⟨1, none, none, "*obj alpha"⟩),
                   (3, ⟨3, none, none, "***deep line"⟩)] } : ObjectionResult).lines =
        t.lines ∧
      (({ nominator := none, objector := none, addressed := true, overdue := false,
          first_notification := false, last_date := none,
          lines := [(1, ⟨1, none, none, "*obj alpha"⟩),
                    (3, ⟨3, none, none, "***deep line"⟩)] } : ObjectionResult).addressed =
          true ↔ t.lines.length % 2 = 0)) ∧
    (∃ t ∈ [({ user := none, nested := false, struck := false,
               lines := [(1, ⟨1, none, some "14:05, 3 January 2020", "*x"⟩),
                         (2, ⟨2, none, some "14:05, 4 January 2020", "**y"⟩)] } : ObjectionTree)],
      t.struck = false ∧
      ({ nominator := none, objector := none, addressed := true, overdue := true,
         first_notification := false, last_date := some "14:05, 4 January 2020",
         lines := [(1, ⟨1, none, some "14:05, 3 January 2020", "*x"⟩),
                   (2, ⟨2, none, some "14:05, 4 January 2020", "**y"⟩)] } : ObjectionResult).lines.length =
        t.lines.length ∧
      (({ nominator := none, objector := none, addressed := true, overdue := true,
          first_notification := false, last_date := some "14:05, 4 January 2020",
          lines := [(1, ⟨1, none, some "14:05, 3 January 2020", "*x"⟩),
                    (2, ⟨2, none, some "14:05, 4 January 2020", "**y"⟩)] } : ObjectionResult).addressed =
          true ↔ t.lines.length % 2 = 0)) ∧
    ({ nominator := none, objector := none, addressed := false, overdue := false,
       first_notification := false, last_date := none,
       lines := [(1, ⟨1, none, none, "*only"⟩)] } : ObjectionResult).addressed = false ∧
    ({ nominator := none, objector := none, addressed := true, overdue := false,
       first_notification := false, last_date := none,
       lines := [(1, ⟨1, none, none, "*a"⟩),
                 (2, ⟨2, none, none, "**b"⟩)] } : ObjectionResult).addressed = true := by
  refine ⟨?_, ?_, ?_, ?_⟩
  · exact C3_addressed_counts_levels.1 none _ _ (by decide) _ (List.mem_singleton.mpr rfl)
  · exact C3_addressed_counts_levels.2.1 ⟨"CAN", 3, 2, 4, "\x7b\x7bab\x7d\x7d", "Category:X", 14, 30⟩
      ⟨2024, 1, 1, 0, 0⟩ none _ _ (by decide) _ (List.mem_singleton.mpr rfl)
  · exact C3_addressed_counts_levels.2.2.1 none
      { user := none, nested := false, struck := false,
        lines := [(1, ⟨1, none, none, "*only"⟩)] } _ rfl (by decide) (by decide) _
      (List.mem_singleton.mpr rfl)
  · exact C3_addressed_counts_levels.2.2.2 none
      { user := none, nested := false, struck := false,
        lines := [(1, ⟨1, none, none, "*a"⟩), (2, ⟨2, none, none, "**b"⟩)] } _ rfl
      (by decide) (by decide) _ (List.mem_singleton.mpr rfl)
